import Mathlib

/-!
Verification of the dependency-free (`no_std`) numeric kernel of the `mathx`
repository (`src/math.rs`, the `#[cfg(feature = "no_std")] impl Math` block).

Embedding conventions:

* `f32` scalars are embedded as exact rationals (`ℚ`).  The baseline
  definitions translate each arithmetic operation (`+`, `-`, `*`, `/`,
  comparisons) to the exact rational operation.  Where a claim's truth value
  depends on IEEE-754 rounding, the file additionally provides
  rounding-faithful variants built on `fl`, a from-first-principles
  round-to-nearest-even into the binary32 grid (`cordicFuelF32` for the
  angle-reduction recursion, `fracF32` for the final subtraction of `frac`,
  `lerp_unclampedF32`/`lerpF32` for the interpolation chain); each such claim
  is settled against the rounded variant at the decisive operation.  The
  special values `NaN` and the sign of zero have no rational counterpart:
  wherever the source produces `NaN` (negative input to `sqrt`) the embedded
  function returns `none`, and `-0.0` is identified with `0` (all comparisons
  the source performs on zeros are numeric, so this is behavior-preserving).
* `i32` is embedded as `ℤ`; where the source can overflow (`abs_i32` applied
  to `i32::MIN`) the embedding applies the release-build two's-complement
  wrapping semantics explicitly (`wrap32`).
* The float constants `Math::PI`, `Math::PI_OVER_2` and `Math::TWO_PI` are
  embedded by the exact values of the rounded `f32` literals the compiled
  program actually uses (the decimal literals in the source are rounded to the
  nearest `f32` by the Rust compiler): `3.14159265359` rounds to
  `13176795 / 2^22`, `1.570796326` rounds to `13176795 / 2^23` and
  `6.28318530718` rounds to `13176795 / 2^21`.  In particular the compiled
  `PI` is exactly `2 * PI_OVER_2`, which is what makes the CORDIC angle
  reduction terminate for every input.  The remaining decimal literals
  (arctangent table, CORDIC gain, tolerances) are embedded by their decimal
  values; they differ from their `f32` roundings by less than `6e-8`, far
  below every tolerance the claims mention.
* The recursive CORDIC reduction and the bounded `while` loop of `sqrt` are
  embedded fuel-style; lemmas below prove that the fuel chosen for `cordic`
  is always sufficient (the result is unchanged by any larger fuel), which is
  exactly the termination statement for the unbounded source recursion.
-/

namespace Math

/-- `Math::PI`: exact value of the `f32` nearest to the literal `3.14159265359`. -/
def PI : ℚ := 13176795 / 4194304

/-- `Math::PI_OVER_2`: exact value of the `f32` nearest to the literal `1.570796326`. -/
def PI_OVER_2 : ℚ := 13176795 / 8388608

/-- `Math::TWO_PI`: exact value of the `f32` nearest to the literal `6.28318530718`. -/
def TWO_PI : ℚ := 13176795 / 2097152

/-- Two's-complement wrap of an integer into the `i32` range, the release-build
semantics of overflowing `i32` arithmetic in Rust. -/
def wrap32 (n : ℤ) : ℤ := (n + 2 ^ 31) % 2 ^ 32 - 2 ^ 31

/-- `Math::abs_i32` (src/math.rs:491): `if value < 0 { -value } else { value }`.
The negation is wrapped because `-i32::MIN` overflows; release builds wrap
(debug builds panic, a caveat recorded where the claims touch it). -/
def abs_i32 (value : ℤ) : ℤ := if value < 0 then wrap32 (-value) else value

/-- Loop body of `Math::pow_i32` (src/math.rs:44-48): starting from
`result = a`, `powLoop a n` performs `n` further `result *= a` steps. -/
def powLoop (a : ℚ) : ℕ → ℚ
  | 0 => a
  | n + 1 => powLoop a n * a

/-- `Math::pow_i32` (src/math.rs:41-52): `if b == 0 { return 1.0 }`, then
`result = a` multiplied `abs_i32(b) - 1` more times (the `for _ in 1..abs` loop),
and `1.0 / result` for negative `b`. -/
def pow_i32 (a : ℚ) (b : ℤ) : ℚ :=
  if b = 0 then 1
  else
    let result := powLoop a ((abs_i32 b).toNat - 1)
    if b < 0 then 1 / result else result

/-- `Math::get_atan_for_cordic` (src/math.rs:145-165): the 16-entry
precomputed arctangent table, written in the source as a `match` with a
`0.0` default arm. -/
def get_atan_for_cordic (index : ℤ) : ℚ :=
  if index = 0 then 0.7853982
  else if index = 1 then 0.4636476
  else if index = 2 then 0.24497867
  else if index = 3 then 0.124354996
  else if index = 4 then 0.06241881
  else if index = 5 then 0.031239834
  else if index = 6 then 0.015623729
  else if index = 7 then 0.007812341
  else if index = 8 then 0.0039062302
  else if index = 9 then 0.0019531226
  else if index = 10 then 0.0009765622
  else if index = 11 then 0.00048828122
  else if index = 12 then 0.00024414063
  else if index = 13 then 0.00012207031
  else if index = 14 then 0.000061035156
  else if index = 15 then 0.000030517578
  else 0

/-- `Math::negate_tuple` (src/math.rs:171). -/
def negate_tuple (tuple : ℚ × ℚ) : ℚ × ℚ := (-tuple.1, -tuple.2)

/-- One iteration of the CORDIC rotation loop body (src/math.rs:189-197),
acting on the state `(cos, sin, z)`; `i` is the loop index. -/
def cordicStep (i : ℤ) (s : ℚ × ℚ × ℚ) : ℚ × ℚ × ℚ :=
  let di : ℚ := if s.2.2 ≤ 0 then -1 else 1
  let newCos := s.1 - s.2.1 * di * pow_i32 2 (-i)
  let newSin := s.2.1 + s.1 * di * pow_i32 2 (-i)
  (newCos, newSin, s.2.2 - di * get_atan_for_cordic i)

/-- `cordicRotations n s` applies the rotation steps `0, 1, …, n-1` in order,
so `cordicRotations 16 s` is the `for i in 0..ITERATIONS` loop of
`Math::cordic` with `ITERATIONS = 16`. -/
def cordicRotations : ℕ → ℚ × ℚ × ℚ → ℚ × ℚ × ℚ
  | 0, s => s
  | n + 1, s => cordicStep n (cordicRotations n s)

/-- `Math::cordic` (src/math.rs:177-200) in exact rational arithmetic,
fuel-indexed: the source function recurses unboundedly during angle range
reduction; `cordicFuel fuel angle` allows at most `fuel` call frames, and
`cordicFuel_adequate` below shows the fuel `cordicFuelNeeded angle` always
suffices *in this exact model*, so `cordic` (defined next) is well defined
on every rational.  This exact model backs the fixture-tolerance claims,
where rounding drift is far below the stated epsilon; the compiled
program's reduction applies `f32` rounding to `angle ± PI` and is modeled
separately by `cordicFuelF32`, which (unlike this function) makes no
progress at large angles.  The rotation seed is the gain constant
`0.6072529`, and the returned pair is `(sin, cos)`. -/
def cordicFuel : ℕ → ℚ → ℚ × ℚ
  | 0, _ => (0, 0)
  | fuel + 1, angle =>
    if angle < -PI_OVER_2 ∨ angle > PI_OVER_2 then
      if angle < 0 then negate_tuple (cordicFuel fuel (angle + PI))
      else negate_tuple (cordicFuel fuel (angle - PI))
    else
      let s := cordicRotations 16 (0.6072529, 0, angle)
      (s.2.1, s.1)

/-- Number of call frames that provably suffices for `Math::cordic` at a
given angle: one frame per reduction step plus the final rotation frame. -/
def cordicFuelNeeded (angle : ℚ) : ℕ := (⌈|angle| / PI_OVER_2⌉).toNat + 1

/-- `Math::cordic` (src/math.rs:177-200). -/
def cordic (angle : ℚ) : ℚ × ℚ := cordicFuel (cordicFuelNeeded angle) angle

/-- `Math::sin_cos` (src/math.rs:81): returns `(sin, cos)`. -/
def sin_cos (angle : ℚ) : ℚ × ℚ := cordic angle

/-- `Math::sin` (src/math.rs:110). -/
def sin (angle : ℚ) : ℚ := (cordic angle).1

/-- `Math::cos` (src/math.rs:139). -/
def cos (angle : ℚ) : ℚ := (cordic angle).2

/-- Number of range-reduction recursion steps `Math::cordic` performs before
entering the rotation loop, fuel-indexed like `cordicFuel`. -/
def reductionDepthFuel : ℕ → ℚ → ℕ
  | 0, _ => 0
  | fuel + 1, angle =>
    if angle < -PI_OVER_2 ∨ angle > PI_OVER_2 then
      1 + reductionDepthFuel fuel (if angle < 0 then angle + PI else angle - PI)
    else 0

/-- Number of range-reduction recursion steps `Math::cordic` performs at a
given angle. -/
def reductionDepth (angle : ℚ) : ℕ := reductionDepthFuel (cordicFuelNeeded angle) angle

/-- The `while` loop of `Math::sqrt` (src/math.rs:531-538).  The fuel is the
remaining value of the `max` counter (50 at entry), so the structure is the
source loop verbatim: guard `value - x*x <= 1e-6`, Newton update, early
`break` when `value - x*x == 0.0`, decrement. -/
def sqrtLoop : ℕ → ℚ → ℚ → ℚ
  | 0, _, x => x
  | m + 1, value, x =>
    if value - x * x ≤ 1 / 1000000 then
      let x2 := (x + value / x) / 2
      if value - x2 * x2 = 0 then x2
      else sqrtLoop m value x2
    else x

/-- `Math::sqrt` (src/math.rs:527-541).  The source's `value < -0.0` guard is
a numeric comparison, hence equivalent to `value < 0`; the `NaN` it returns is
embedded as `none`, and both IEEE zeros are the rational `0`. -/
def sqrt (value : ℚ) : Option ℚ :=
  if value < 0 then none
  else if value = 0 then some 0
  else some (sqrtLoop 50 value value)

/-- Number of executed iterations of the `Math::sqrt` loop body, with the
same fuel structure as `sqrtLoop`. -/
def sqrtLoopSteps : ℕ → ℚ → ℚ → ℕ
  | 0, _, _ => 0
  | m + 1, value, x =>
    if value - x * x ≤ 1 / 1000000 then
      let x2 := (x + value / x) / 2
      if value - x2 * x2 = 0 then 1
      else 1 + sqrtLoopSteps m value x2
    else 0

/-- Number of loop-body iterations `Math::sqrt` executes on a given input. -/
def sqrtSteps (value : ℚ) : ℕ :=
  if value < 0 then 0 else if value = 0 then 0 else sqrtLoopSteps 50 value value

/-- `Math::trunc` (src/math.rs:509): `(value as i32) as f32`.  The Rust
float-to-int cast truncates toward zero and saturates to the `i32` range;
the int-to-float cast back then rounds the integer to the nearest `f32`.
For every `f32` input the only integer this pipeline can produce that is
not itself an `f32` is `i32::MAX = 2147483647`, which rounds up to
`2^31 = 2147483648.0` (inputs below `2^24` truncate to integers of at most
24 bits, exact; `f32` inputs in `[2^24, 2^31)` are already integers and
round-trip; larger inputs saturate to `i32::MAX` or to `i32::MIN = -2^31`,
which is exactly representable).  The embedding therefore applies that one
cast-back rounding explicitly. -/
def trunc (value : ℚ) : ℚ :=
  let t : ℤ := max (-2147483648) (min 2147483647 (if value < 0 then ⌈value⌉ else ⌊value⌋))
  if t = 2147483647 then 2147483648 else (t : ℚ)

/-- `Math::ceil` (src/math.rs:269-275). -/
def ceil (value : ℚ) : ℚ :=
  let t := trunc value
  if t = value then t
  else t + (if value < 0 then 0 else 1)

/-- `Math::floor` (src/math.rs:295-301). -/
def floor (value : ℚ) : ℚ :=
  let t := trunc value
  if t = value then t
  else t - (if value < 0 then 1 else 0)

/-- `Math::frac` (src/math.rs:249): `value - floor(value)`, in exact
arithmetic; the compiled rounding of the final `f32` subtraction is modeled
by `fracF32` below, where a claim depends on it. -/
def frac (value : ℚ) : ℚ := value - floor value

/-- `Math::sign` (src/math.rs:317): `if value < 0.0 { -1.0 } else { 1.0 }`.
The source compares numerically, so `-0.0` lands in the `1.0` branch; the
rational embedding identifies both zeros with `0`. -/
def sign (value : ℚ) : ℚ := if value < 0 then -1 else 1

/-- Body of Rust's `f32::clamp` after its `assert!(min <= max)`:
`if self < min { min } else ... if self > max { max }`. -/
def clampVal (value lo hi : ℚ) : ℚ :=
  let v1 := if value < lo then lo else value
  if v1 > hi then hi else v1

/-- `Math::clamp` (src/math.rs:419): delegates to `f32::clamp`, which panics
when `min > max`; the panic is embedded as `none`. -/
def clamp (value lo hi : ℚ) : Option ℚ :=
  if lo ≤ hi then some (clampVal value lo hi) else none

/-- `Math::lerp_unclamped` (src/math.rs:459): `a + t * (b - a)`, in exact
arithmetic; the compiled per-operation `f32` rounding is modeled by
`lerp_unclampedF32` below, where a claim depends on it. -/
def lerp_unclamped (a b t : ℚ) : ℚ := a + t * (b - a)

/-- `Math::lerp` (src/math.rs:439): `lerp_unclamped(a, b, clamp(t, 0.0, 1.0))`.
The inner `clamp` is called with `min = 0 ≤ 1 = max`, so its `assert` cannot
fire and only the total body `clampVal` is reached. -/
def lerp (a b t : ℚ) : ℚ := lerp_unclamped a b (clampVal t 0 1)

/-- Round a rational to the nearest integer, ties to even — the rounding
rule IEEE-754 applies to the scaled significand. -/
def rnear (x : ℚ) : ℤ :=
  if x - (⌊x⌋ : ℚ) < 1/2 then ⌊x⌋
  else if (⌊x⌋ : ℚ) + 1/2 < x then ⌊x⌋ + 1
  else if 2 ∣ ⌊x⌋ then ⌊x⌋ else ⌊x⌋ + 1

/-- Round a positive rational onto the binary32 grid: scale by the power of
two that puts the value into `[2^23, 2^24)` (clamped below at the subnormal
exponent `-126`), round to nearest-even, scale back. -/
def flPos (q : ℚ) : ℚ :=
  let e : ℤ := max (Int.log 2 q) (-126)
  ((rnear (q / 2 ^ (e - 23)) : ℤ) : ℚ) * 2 ^ (e - 23)

/-- Round-to-nearest-even into the binary32 value grid, the rounding every
compiled `f32` arithmetic operation applies to its exact result.  Finite
values only: no claim below evaluates `fl` outside the finite `f32` range,
so overflow to infinity is not modeled. -/
def fl (q : ℚ) : ℚ :=
  if q = 0 then 0
  else if 0 < q then flPos q
  else -flPos (-q)

/-- `Math::frac` with the compiled rounding of its final `f32` subtraction
`value - floor(value)` applied (the inner `floor` is exact in `f32` at every
input where this definition is used below). -/
def fracF32 (value : ℚ) : ℚ := fl (value - floor value)

/-- `Math::lerp_unclamped` with the compiled `f32` rounding of each
arithmetic step of `a + t * (b - a)` applied. -/
def lerp_unclampedF32 (a b t : ℚ) : ℚ := fl (a + fl (t * fl (b - a)))

/-- `Math::lerp` with the compiled `f32` rounding applied to the
interpolation arithmetic; the clamp itself only compares, which is exact. -/
def lerpF32 (a b t : ℚ) : ℚ := lerp_unclampedF32 a b (clampVal t 0 1)

/-- `Math::cordic` with the compiled `f32` rounding of the reduction's
`angle ± PI` applied, fuel-indexed; `none` means the recursion has not
reached its in-range base case within `fuel` call frames, so
`(∀ fuel, cordicFuelF32 fuel a = none)` states that the compiled recursion
never terminates at angle `a`.  The rotation body (irrelevant to
termination) is kept exact. -/
def cordicFuelF32 : ℕ → ℚ → Option (ℚ × ℚ)
  | 0, _ => none
  | fuel + 1, angle =>
    if angle < -PI_OVER_2 ∨ angle > PI_OVER_2 then
      if angle < 0 then Option.map negate_tuple (cordicFuelF32 fuel (fl (angle + PI)))
      else Option.map negate_tuple (cordicFuelF32 fuel (fl (angle - PI)))
    else
      let s := cordicRotations 16 (0.6072529, 0, angle)
      some (s.2.1, s.1)

end Math

/-!
Helper lemmas about the truncation family: inside the non-saturating range
of the `i32` cast, `Math.trunc` is truncation toward zero, `Math.floor` is
the mathematical floor and `Math.ceil` the mathematical ceiling.
-/

namespace Math

theorem intCeil_eq_intFloor_add_one {v : ℚ} (h : ((⌈v⌉ : ℤ) : ℚ) ≠ v) : ⌈v⌉ = ⌊v⌋ + 1 := by
  have h1 : ⌈v⌉ ≤ ⌊v⌋ + 1 := Int.ceil_le_floor_add_one v
  have h2 : (⌊v⌋ : ℚ) ≤ v := Int.floor_le v
  have h3 : v ≤ (⌈v⌉ : ℚ) := Int.le_ceil v
  have h4 : ⌊v⌋ < ⌈v⌉ := by
    by_contra hc
    push_neg at hc
    have : (⌈v⌉ : ℚ) ≤ v := le_trans (by exact_mod_cast hc) h2
    exact h (le_antisymm this h3)
  omega

theorem trunc_eq_of_abs_lt {v : ℚ} (h : |v| < 2147483647) :
    trunc v = if v < 0 then ((⌈v⌉ : ℤ) : ℚ) else ((⌊v⌋ : ℤ) : ℚ) := by
  obtain ⟨h1, h2⟩ := abs_lt.mp h
  by_cases hv : v < 0
  · have hc1 : ⌈v⌉ ≤ 2147483647 := Int.ceil_le.mpr (by push_cast; linarith)
    have hc0 : ⌈v⌉ ≤ 0 := Int.ceil_le.mpr (by push_cast; linarith)
    have hc2 : (-2147483648 : ℤ) ≤ ⌈v⌉ := by
      have hq : (-2147483647 : ℚ) < (⌈v⌉ : ℚ) := lt_of_lt_of_le h1 (Int.le_ceil v)
      have h3 : (-2147483647 : ℤ) < ⌈v⌉ := by exact_mod_cast hq
      omega
    simp only [trunc, if_pos hv]
    rw [min_eq_right hc1, max_eq_right hc2, if_neg (by omega)]
  · have hf0 : (0 : ℤ) ≤ ⌊v⌋ := Int.le_floor.mpr (by push_cast; linarith [not_lt.mp hv])
    have hf2 : ⌊v⌋ < 2147483647 := Int.floor_lt.mpr (by push_cast; linarith)
    simp only [trunc, if_neg hv]
    rw [min_eq_right (by omega : ⌊v⌋ ≤ 2147483647),
      max_eq_right (by omega : (-2147483648 : ℤ) ≤ ⌊v⌋), if_neg (by omega)]

theorem floor_eq_intFloor {v : ℚ} (h : |v| < 2147483647) : floor v = ((⌊v⌋ : ℤ) : ℚ) := by
  rw [floor, trunc_eq_of_abs_lt h]
  split_ifs with hv he he
  · have hfc : ⌈v⌉ = ⌊v⌋ := by
      have h5 := congrArg (fun q : ℚ => ⌊q⌋) he
      simpa using h5
    rw [hfc]
  · have : ⌈v⌉ = ⌊v⌋ + 1 := intCeil_eq_intFloor_add_one he
    rw [this]
    push_cast
    ring
  · rfl
  · ring

theorem ceil_eq_intCeil {v : ℚ} (h : |v| < 2147483647) : ceil v = ((⌈v⌉ : ℤ) : ℚ) := by
  rw [ceil, trunc_eq_of_abs_lt h]
  split_ifs with hv he he
  · rfl
  · ring
  · have hcf : ⌊v⌋ = ⌈v⌉ := by
      have h5 := congrArg (fun q : ℚ => ⌈q⌉) he
      simpa using h5
    rw [hcf]
  · have hne : ((⌈v⌉ : ℤ) : ℚ) ≠ v := by
      intro hc
      have hvint : (⌊v⌋ : ℚ) = v := by
        have : ⌊v⌋ = ⌈v⌉ := by
          have := Int.floor_intCast (α := ℚ) ⌈v⌉
          rw [hc] at this
          omega
        rw [this, hc]
      exact he hvint
    have : ⌈v⌉ = ⌊v⌋ + 1 := intCeil_eq_intFloor_add_one hne
    rw [this]
    push_cast
    ring

theorem trunc_pos_two_pow_31 : trunc (2147483648 : ℚ) = 2147483648 := by
  have hf : ⌊(2147483648 : ℚ)⌋ = 2147483648 := by
    rw [show (2147483648 : ℚ) = ((2147483648 : ℤ) : ℚ) by norm_num, Int.floor_intCast]
  simp only [trunc, if_neg (by norm_num : ¬ (2147483648 : ℚ) < 0)]
  rw [hf, show max (-2147483648) (min 2147483647 (2147483648 : ℤ)) = 2147483647 by omega,
    if_pos rfl]

theorem trunc_neg_two_pow_31 : trunc (-2147483648 : ℚ) = -2147483648 := by
  have hc : ⌈(-2147483648 : ℚ)⌉ = -2147483648 := by
    rw [show (-2147483648 : ℚ) = ((-2147483648 : ℤ) : ℚ) by norm_num, Int.ceil_intCast]
  simp only [trunc, if_pos (by norm_num : (-2147483648 : ℚ) < 0)]
  rw [hc, show max (-2147483648) (min 2147483647 (-2147483648 : ℤ)) = -2147483648 by omega,
    if_neg (by omega)]
  norm_num

theorem floor_pos_two_pow_31 : floor (2147483648 : ℚ) = 2147483648 := by
  simp only [floor]
  rw [trunc_pos_two_pow_31, if_pos rfl]

theorem floor_neg_two_pow_31 : floor (-2147483648 : ℚ) = -2147483648 := by
  simp only [floor]
  rw [trunc_neg_two_pow_31, if_pos rfl]

theorem ceil_pos_two_pow_31 : ceil (2147483648 : ℚ) = 2147483648 := by
  simp only [ceil]
  rw [trunc_pos_two_pow_31, if_pos rfl]

theorem ceil_neg_two_pow_31 : ceil (-2147483648 : ℚ) = -2147483648 := by
  simp only [ceil]
  rw [trunc_neg_two_pow_31, if_pos rfl]

end Math

/-!
Termination of the CORDIC angle-reduction recursion.  Because the compiled
constants satisfy `PI = 2 * PI_OVER_2` exactly, one reduction step strictly
decreases `cordicFuelNeeded`, so the fuel chosen in `cordic` always
suffices and any larger fuel gives the same result.
-/

namespace Math

theorem PI_eq_two_mul : PI = 2 * PI_OVER_2 := by
  norm_num [PI, PI_OVER_2]

theorem PI_OVER_2_pos : (0 : ℚ) < PI_OVER_2 := by
  norm_num [PI_OVER_2]

theorem fuelNeeded_pos (angle : ℚ) : 1 ≤ cordicFuelNeeded angle := by
  rw [cordicFuelNeeded]
  omega

theorem fuelNeeded_neg (angle : ℚ) : cordicFuelNeeded (-angle) = cordicFuelNeeded angle := by
  rw [cordicFuelNeeded, cordicFuelNeeded, abs_neg]

theorem fuelNeeded_dec_pos {a : ℚ} (h : PI_OVER_2 < a) :
    cordicFuelNeeded (a - PI) < cordicFuelNeeded a := by
  have hP := PI_OVER_2_pos
  rw [cordicFuelNeeded, cordicFuelNeeded, PI_eq_two_mul]
  have ha : |a| = a := abs_of_pos (lt_trans hP h)
  have hk : 1 < ⌈a / PI_OVER_2⌉ := Int.lt_ceil.mpr (by
    push_cast
    exact (one_lt_div hP).mpr h)
  rw [ha]
  rcases le_or_lt a (2 * PI_OVER_2) with hc | hc
  · have habs : |a - 2 * PI_OVER_2| = 2 * PI_OVER_2 - a := by
      rw [abs_of_nonpos (by linarith)]
      ring
    have hsmall : ⌈|a - 2 * PI_OVER_2| / PI_OVER_2⌉ ≤ 1 := by
      apply Int.ceil_le.mpr
      push_cast
      rw [habs, div_le_one hP]
      linarith
    omega
  · have habs : |a - 2 * PI_OVER_2| = a - 2 * PI_OVER_2 := abs_of_pos (by linarith)
    have hdiv : |a - 2 * PI_OVER_2| / PI_OVER_2 = a / PI_OVER_2 - ((2 : ℤ) : ℚ) := by
      rw [habs]
      push_cast
      field_simp
      ring
    rw [hdiv, Int.ceil_sub_int]
    omega

theorem fuelNeeded_dec_neg {a : ℚ} (h : a < -PI_OVER_2) :
    cordicFuelNeeded (a + PI) < cordicFuelNeeded a := by
  have h2 : PI_OVER_2 < -a := by linarith
  have h3 := fuelNeeded_dec_pos h2
  rw [show -a - PI = -(a + PI) by ring, fuelNeeded_neg, fuelNeeded_neg] at h3
  exact h3

theorem cordicFuel_succ : ∀ fuel angle, cordicFuelNeeded angle ≤ fuel →
    cordicFuel (fuel + 1) angle = cordicFuel fuel angle := by
  intro fuel
  induction fuel with
  | zero =>
    intro angle h
    exact absurd h (by have := fuelNeeded_pos angle; omega)
  | succ f ih =>
    intro angle h
    by_cases hrange : angle < -PI_OVER_2 ∨ angle > PI_OVER_2
    · rw [cordicFuel.eq_2 angle (f + 1), cordicFuel.eq_2 angle f, if_pos hrange, if_pos hrange]
      by_cases hneg : angle < 0
      · rw [if_pos hneg, if_pos hneg]
        have hbelow : angle < -PI_OVER_2 := by
          rcases hrange with hr | hr
          · exact hr
          · exact absurd (lt_trans PI_OVER_2_pos hr) (not_lt.mpr (le_of_lt hneg))
        have hdec := fuelNeeded_dec_neg hbelow
        exact congrArg negate_tuple (ih (angle + PI) (by omega))
      · rw [if_neg hneg, if_neg hneg]
        have habove : PI_OVER_2 < angle := by
          rcases hrange with hr | hr
          · exact absurd (lt_trans hr (neg_lt_zero.mpr PI_OVER_2_pos)) hneg
          · exact hr
        have hdec := fuelNeeded_dec_pos habove
        exact congrArg negate_tuple (ih (angle - PI) (by omega))
    · rw [cordicFuel.eq_2 angle (f + 1), cordicFuel.eq_2 angle f, if_neg hrange, if_neg hrange]

theorem cordicFuel_adequate : ∀ fuel angle, cordicFuelNeeded angle ≤ fuel →
    cordicFuel fuel angle = cordic angle := by
  intro fuel
  induction fuel with
  | zero =>
    intro angle h
    exact absurd h (by have := fuelNeeded_pos angle; omega)
  | succ f ih =>
    intro angle h
    by_cases hf : cordicFuelNeeded angle ≤ f
    · rw [cordicFuel_succ f angle hf, ih angle hf]
    · have heq : cordicFuelNeeded angle = f + 1 := by omega
      rw [cordic, heq]

theorem sqrtLoopSteps_le : ∀ fuel value x, sqrtLoopSteps fuel value x ≤ fuel := by
  intro fuel
  induction fuel with
  | zero =>
    intro value x
    simp [sqrtLoopSteps]
  | succ m ih =>
    intro value x
    simp only [sqrtLoopSteps]
    split_ifs
    · omega
    · have := ih value ((x + value / x) / 2)
      omega
    · omega

theorem reductionDepthFuel_le : ∀ fuel angle, reductionDepthFuel fuel angle ≤ fuel := by
  intro fuel
  induction fuel with
  | zero =>
    intro angle
    simp [reductionDepthFuel]
  | succ f ih =>
    intro angle
    simp only [reductionDepthFuel]
    split_ifs with hr hneg
    · have := ih (angle + PI)
      omega
    · have := ih (angle - PI)
      omega
    · omega

end Math

/-!
Concrete evaluations of the fuel bound, and a one-step exit lemma for the
square-root loop.
-/

namespace Math

theorem PI_pos : (0 : ℚ) < PI := by
  norm_num [PI]

theorem fuelNeeded_zero_eval : cordicFuelNeeded 0 = 1 := by
  simp [cordicFuelNeeded]

theorem fuelNeeded_pi_over_2_eval : cordicFuelNeeded PI_OVER_2 = 2 := by
  rw [cordicFuelNeeded, abs_of_pos PI_OVER_2_pos, div_self (ne_of_gt PI_OVER_2_pos),
    Int.ceil_one]
  rfl

theorem fuelNeeded_pi_eval : cordicFuelNeeded PI = 3 := by
  have h2 : PI / PI_OVER_2 = ((2 : ℤ) : ℚ) := by
    rw [PI_eq_two_mul]
    push_cast
    rw [mul_div_assoc, div_self (ne_of_gt PI_OVER_2_pos), mul_one]
  rw [cordicFuelNeeded, abs_of_pos PI_pos, h2, Int.ceil_intCast]
  rfl

theorem fuelNeeded_neg100_eval : cordicFuelNeeded (-100) = 65 := by
  have ha : |(-100 : ℚ)| = 100 := by
    rw [abs_of_nonpos (by norm_num)]
    norm_num
  have hc : ⌈(100 : ℚ) / PI_OVER_2⌉ = 64 := by
    rw [Int.ceil_eq_iff]
    constructor
    · norm_num [PI_OVER_2]
    · norm_num [PI_OVER_2]
  rw [cordicFuelNeeded, ha, hc]
  rfl

theorem sqrtLoop_exit (m : ℕ) {value x : ℚ} (h : ¬ value - x * x ≤ 1 / 1000000) :
    sqrtLoop (m + 1) value x = x := by
  simp only [sqrtLoop]
  rw [if_neg h]

end Math


/-!
Evaluation lemmas for the binary32 rounding `fl`, concrete reduction-depth
values of the exact model, and the non-progress of the compiled angle
reduction at `1e8`.
-/

namespace Math

theorem rnear_eval_down (x : ℚ) (f : ℤ) (hf : (f : ℚ) ≤ x) (hf1 : x < (f : ℚ) + 1)
    (hlt : x - (f : ℚ) < 1/2) : rnear x = f := by
  have hfl : ⌊x⌋ = f := Int.floor_eq_iff.mpr ⟨hf, hf1⟩
  simp only [rnear, hfl]
  rw [if_pos hlt]

theorem rnear_eval_up (x : ℚ) (f : ℤ) (hf : (f : ℚ) ≤ x) (hf1 : x < (f : ℚ) + 1)
    (hgt : (f : ℚ) + 1/2 < x) : rnear x = f + 1 := by
  have hfl : ⌊x⌋ = f := Int.floor_eq_iff.mpr ⟨hf, hf1⟩
  simp only [rnear, hfl]
  rw [if_neg (by linarith), if_pos hgt]

theorem flPos_eval {q : ℚ} {e : ℤ} (h1 : (2 : ℚ) ^ e ≤ q) (h2 : q < (2 : ℚ) ^ (e + 1))
    (h3 : (-126 : ℤ) ≤ e) :
    flPos q = ((rnear (q / 2 ^ (e - 23)) : ℤ) : ℚ) * 2 ^ (e - 23) := by
  have hq : 0 < q := lt_of_lt_of_le (zpow_pos (by norm_num) e) h1
  have hb : ((2 : ℕ) : ℚ) = (2 : ℚ) := by norm_num
  have hle : e ≤ Int.log 2 q := by
    rw [← Int.zpow_le_iff_le_log (by norm_num) hq, hb]
    exact h1
  have hlt : Int.log 2 q < e + 1 := by
    rw [← Int.lt_zpow_iff_log_lt (by norm_num) hq, hb]
    exact h2
  have hlog : Int.log 2 q = e := by omega
  simp only [flPos, hlog, max_eq_left h3]

theorem fl_eval_pos (q r : ℚ) (e : ℤ) (h1 : (2 : ℚ) ^ e ≤ q) (h2 : q < (2 : ℚ) ^ (e + 1))
    (h3 : (-126 : ℤ) ≤ e)
    (hr : ((rnear (q / 2 ^ (e - 23)) : ℤ) : ℚ) * 2 ^ (e - 23) = r) : fl q = r := by
  have hq : 0 < q := lt_of_lt_of_le (zpow_pos (by norm_num) e) h1
  simp only [fl]
  rw [if_neg (ne_of_gt hq), if_pos hq, flPos_eval h1 h2 h3, hr]

theorem fl_neg_eval (p r : ℚ) (hp : 0 < p) (h : fl p = r) : fl (-p) = -r := by
  have hplus : fl p = flPos p := by
    simp only [fl]
    rw [if_neg (ne_of_gt hp), if_pos hp]
  simp only [fl]
  rw [if_neg (neg_ne_zero.mpr (ne_of_gt hp)), if_neg (by linarith), neg_neg, ← hplus, h]

theorem fl_zero : fl 0 = 0 := by
  simp [fl]

theorem fl_1e8_sub_pi : fl ((419430386823205 : ℚ)/4194304) = 100000000 := by
  apply fl_eval_pos ((419430386823205 : ℚ)/4194304) 100000000 26 (by norm_num) (by norm_num)
    (by norm_num)
  rw [show (419430386823205 : ℚ)/4194304 / 2 ^ ((26 : ℤ) - 23)
      = (419430386823205 : ℚ)/33554432 by norm_num,
    rnear_eval_up ((419430386823205 : ℚ)/33554432) 12499999 (by norm_num) (by norm_num)
      (by norm_num)]
  norm_num

theorem fl_99999999_eval : fl (99999999 : ℚ) = 100000000 := by
  apply fl_eval_pos (99999999 : ℚ) 100000000 26 (by norm_num) (by norm_num) (by norm_num)
  rw [show (99999999 : ℚ) / 2 ^ ((26 : ℤ) - 23) = (99999999 : ℚ)/8 by norm_num,
    rnear_eval_up ((99999999 : ℚ)/8) 12499999 (by norm_num) (by norm_num) (by norm_num)]
  norm_num

theorem fl_1e8_eval : fl (100000000 : ℚ) = 100000000 := by
  apply fl_eval_pos (100000000 : ℚ) 100000000 26 (by norm_num) (by norm_num) (by norm_num)
  rw [show (100000000 : ℚ) / 2 ^ ((26 : ℤ) - 23) = (12500000 : ℚ) by norm_num,
    rnear_eval_down (12500000 : ℚ) 12500000 (by norm_num) (by norm_num) (by norm_num)]
  norm_num

theorem fl_one_sub_eps : fl ((17179869183 : ℚ)/17179869184) = 1 := by
  apply fl_eval_pos ((17179869183 : ℚ)/17179869184) 1 (-1) (by norm_num) (by norm_num)
    (by norm_num)
  rw [show (17179869183 : ℚ)/17179869184 / 2 ^ ((-1 : ℤ) - 23)
      = (17179869183 : ℚ)/1024 by norm_num,
    rnear_eval_up ((17179869183 : ℚ)/1024) 16777215 (by norm_num) (by norm_num) (by norm_num)]
  norm_num

theorem cordicFuelF32_stuck_at_1e8 : ∀ fuel, cordicFuelF32 fuel 100000000 = none := by
  intro fuel
  induction fuel with
  | zero => rfl
  | succ f ih =>
    rw [cordicFuelF32.eq_2 100000000 f, if_pos (Or.inr (by norm_num [PI_OVER_2])),
      if_neg (by norm_num),
      show (100000000 : ℚ) - PI = (419430386823205 : ℚ)/4194304 by norm_num [PI],
      fl_1e8_sub_pi, ih]
    rfl

end Math

set_option maxRecDepth 100000 in
theorem reductionDepth_neg100_eval : Math.reductionDepth (-100) = 32 := by
  rw [Math.reductionDepth, Math.fuelNeeded_neg100_eval]
  norm_num [Math.reductionDepthFuel, Math.PI, Math.PI_OVER_2]

theorem reductionDepth_zero_eval : Math.reductionDepth 0 = 0 := by
  rw [Math.reductionDepth, Math.fuelNeeded_zero_eval]
  norm_num [Math.reductionDepthFuel, Math.PI_OVER_2]


/-!
The claims.
-/

/-- C1 (code bug, evaluated at the failing input): the spec demands
`|sqrt(v)*sqrt(v) - v| < 1e-3` for every `v ≥ 0`, but at `v = 0.25` the
loop guard `value - x*x <= 1e-6` is already false at the seed `x = value`
(`0.25 - 0.0625 = 0.1875 > 1e-6`), so the Newton loop never executes and
`Math::sqrt` returns its input `0.25` unchanged, which misses the bound by
`0.1875`. -/
theorem sqrt_loop_never_runs_on_quarter :
    Math.sqrt (1/4) = some (1/4) ∧ 1/1000 ≤ |(1/4 : ℚ) * (1/4) - 1/4| := by
  constructor
  · have hs : Math.sqrtLoop 50 (1/4) (1/4) = 1/4 := by
      rw [show (50 : ℕ) = 49 + 1 from rfl]
      exact Math.sqrtLoop_exit 49 (by norm_num)
    rw [Math.sqrt, if_neg (by norm_num), if_neg (by norm_num), hs]
  · rw [show (1/4 : ℚ) * (1/4) - 1/4 = -(3/16) by norm_num, abs_neg,
      abs_of_nonneg (by norm_num)]
    norm_num

/-- C2 (amended): `Math::sqrt` terminates on every input — its loop body
executes at most the hard cap of 50 iterations — and the CORDIC rotation is
the fixed 16-step loop `cordicRotations 16`; but the angle-reduction
recursion does not terminate on every input: with the compiled `f32`
rounding of `angle - PI` applied (`cordicFuelF32`), the recursion makes no
progress at `angle = 1e8`, so no amount of fuel reaches the in-range base
case — the compiled `sin`/`cos`/`sin_cos` recurse forever there; and where
the reduction does terminate, its depth grows with the angle (32 recursive
steps at `-100`, none at `0`) rather than being constant. -/
theorem sqrt_capped_and_cordic_divergence :
    (∀ value, Math.sqrtSteps value ≤ 50) ∧
    (∀ fuel, Math.cordicFuelF32 fuel 100000000 = none) ∧
    Math.reductionDepth (-100) = 32 ∧ Math.reductionDepth 0 = 0 := by
  refine ⟨?_, Math.cordicFuelF32_stuck_at_1e8, reductionDepth_neg100_eval,
    reductionDepth_zero_eval⟩
  intro value
  rw [Math.sqrtSteps]
  split_ifs
  · omega
  · omega
  · exact Math.sqrtLoopSteps_le 50 value value

/-- C2 counterexample: at the ordinary finite angle `1e8` the compiled
reduction step makes no progress — `1e8 - PI` rounds back to `1e8` in `f32`
— while `1e8` is still outside `[-PI_OVER_2, PI_OVER_2]`, so the recursion
revisits the same angle forever; even a million call frames do not reach
the base case.  This refutes both "terminates regardless of input" and
"in constant time". -/
theorem cordic_reduction_stuck_at_1e8 :
    Math.fl (100000000 - Math.PI) = 100000000 ∧
    ¬ ((100000000 : ℚ) ≤ Math.PI_OVER_2) ∧
    Math.cordicFuelF32 1000000 100000000 = none := by
  refine ⟨?_, by norm_num [Math.PI_OVER_2], Math.cordicFuelF32_stuck_at_1e8 1000000⟩
  rw [show (100000000 : ℚ) - Math.PI = (419430386823205 : ℚ)/4194304 by norm_num [Math.PI]]
  exact Math.fl_1e8_sub_pi

/-- C3: `Math::sqrt` returns NaN (`none`) exactly on strictly negative
inputs, and returns exactly `0` on input `0` (the source's `value < -0.0`
and `value == 0.0` guards are numeric comparisons, so both IEEE zeros are
the rational `0`). -/
theorem sqrt_nan_iff_negative : ∀ value : ℚ,
    (Math.sqrt value = none ↔ value < 0) ∧ (value = 0 → Math.sqrt value = some 0) := by
  intro v
  constructor
  · rw [Math.sqrt]
    split_ifs with h1 h2
    · simp [h1]
    · simp [h1]
    · simp [h1]
  · intro h
    subst h
    rw [Math.sqrt, if_neg (lt_irrefl 0), if_pos rfl]

/-- C3 witness: the zero clause of `sqrt_nan_iff_negative` applied at `0`. -/
theorem sqrt_nan_iff_negative_witness : Math.sqrt 0 = some 0 :=
  (sqrt_nan_iff_negative 0).2 rfl

/-- C5 (amended): `Math::frac` is definitionally `value - floor(value)`.
In exact arithmetic the result lies in `[0, 1)` whenever
`|value| < 2^31 - 1`; the compiled program guarantees only the closed
interval `[0, 1]` there: the final `f32` subtraction can round up to
exactly `1.0` — with that rounding applied (`fracF32`),
`frac(-2^-34) = 1.0` — and outside the cast range the saturating `as i32`
breaks the floor identity entirely (see the counterexample). -/
theorem frac_eq_sub_floor_and_unit_range :
    (∀ value : ℚ, Math.frac value = value - Math.floor value ∧
      (|value| < 2147483647 → 0 ≤ Math.frac value ∧ Math.frac value < 1)) ∧
    Math.fracF32 (-(1/17179869184)) = 1 := by
  constructor
  · intro v
    refine ⟨rfl, fun h => ?_⟩
    rw [Math.frac, Math.floor_eq_intFloor h]
    constructor
    · have := Int.floor_le v
      linarith
    · have := Int.lt_floor_add_one v
      linarith
  · have hfl : Math.floor (-(1/17179869184)) = ((-1 : ℤ) : ℚ) := by
      rw [Math.floor_eq_intFloor (by rw [abs_of_nonpos (by norm_num)]; norm_num)]
      congr 1
      rw [Int.floor_eq_iff]
      constructor
      · norm_num
      · norm_num
    rw [Math.fracF32, hfl,
      show (-(1/17179869184) : ℚ) - ((-1 : ℤ) : ℚ) = (17179869183 : ℚ)/17179869184 by
        push_cast
        norm_num]
    exact Math.fl_one_sub_eps

/-- C5 witness: the exact-arithmetic range clause applied at `value = -4.9`. -/
theorem frac_eq_sub_floor_and_unit_range_witness :
    0 ≤ Math.frac (-49/10) ∧ Math.frac (-49/10) < 1 :=
  (frac_eq_sub_floor_and_unit_range.1 (-49/10)).2
    (by rw [abs_of_nonpos (by norm_num)]; norm_num)

/-- C5 counterexample: at `value = 3e9` (a valid `f32` above `2^31`) the
`as i32` cast inside `trunc` saturates to `i32::MAX`, which casts back to
`2^31`, so `frac(3e9) = 3e9 - 2147483648 = 852516352`, far outside
`[0, 1)`. -/
theorem frac_escapes_unit_interval_at_3e9 : ¬ Math.frac 3000000000 < 1 := by
  have hf : (⌊(3000000000 : ℚ)⌋ : ℤ) = 3000000000 := by
    rw [show (3000000000 : ℚ) = ((3000000000 : ℤ) : ℚ) by norm_num, Int.floor_intCast]
  have ht : Math.trunc 3000000000 = 2147483648 := by
    simp only [Math.trunc, if_neg (by norm_num : ¬ (3000000000 : ℚ) < 0)]
    rw [hf, show max (-2147483648) (min 2147483647 (3000000000 : ℤ)) = 2147483647 by omega,
      if_pos rfl]
  rw [Math.frac]
  simp only [Math.floor]
  rw [ht, if_neg (by norm_num), if_neg (by norm_num)]
  norm_num

/-- C6 (amended): every integer of magnitude below `2^31 - 1` is a fixed
point of `trunc`, `floor` and `ceil` and has `frac = 0` — this covers all
integral values (negative integers and `-0.0`, the rational `0`, included)
on which the `as i32` cast neither saturates nor produces `i32::MAX`; the
identities also hold at `v = 2^31` (the saturated `i32::MAX` casts back up
to exactly `2^31`) and at `v = -2^31` (which fits `i32`).  They fail at
some integral `f32` values above `2^31`, e.g. `2147483904` (see the
counterexample). -/
theorem trunc_identity_on_small_integers :
    (∀ n : ℤ, |(n : ℚ)| < 2147483647 →
      Math.trunc n = n ∧ Math.floor n = n ∧ Math.ceil n = n ∧ Math.frac n = 0) ∧
    (Math.trunc 2147483648 = 2147483648 ∧ Math.floor 2147483648 = 2147483648 ∧
      Math.ceil 2147483648 = 2147483648 ∧ Math.frac 2147483648 = 0) ∧
    (Math.trunc (-2147483648) = -2147483648 ∧ Math.floor (-2147483648) = -2147483648 ∧
      Math.ceil (-2147483648) = -2147483648 ∧ Math.frac (-2147483648) = 0) := by
  refine ⟨?_, ⟨Math.trunc_pos_two_pow_31, Math.floor_pos_two_pow_31,
      Math.ceil_pos_two_pow_31, ?_⟩,
    Math.trunc_neg_two_pow_31, Math.floor_neg_two_pow_31, Math.ceil_neg_two_pow_31, ?_⟩
  · intro n h
    have ht : Math.trunc (n : ℚ) = (n : ℚ) := by
      rw [Math.trunc_eq_of_abs_lt h]
      split_ifs
      · rw [Int.ceil_intCast]
      · rw [Int.floor_intCast]
    have hfl : Math.floor (n : ℚ) = (n : ℚ) := by
      simp only [Math.floor]
      rw [ht, if_pos rfl]
    have hcl : Math.ceil (n : ℚ) = (n : ℚ) := by
      simp only [Math.ceil]
      rw [ht, if_pos rfl]
    refine ⟨ht, hfl, hcl, ?_⟩
    rw [Math.frac, hfl]
    ring
  · rw [Math.frac, Math.floor_pos_two_pow_31]
    norm_num
  · rw [Math.frac, Math.floor_neg_two_pow_31]
    norm_num

/-- C6 witness: the identity applied at the negative integer `-3`. -/
theorem trunc_identity_on_small_integers_witness :
    Math.trunc ((-3 : ℤ) : ℚ) = ((-3 : ℤ) : ℚ) ∧ Math.frac ((-3 : ℤ) : ℚ) = 0 :=
  ⟨(trunc_identity_on_small_integers.1 (-3) (by norm_num)).1,
   (trunc_identity_on_small_integers.1 (-3) (by norm_num)).2.2.2⟩

/-- C6 counterexample: `2147483904 = 2^31 + 256` is an integral `f32` value,
yet `trunc` does not return it unchanged — the `as i32` cast saturates to
`i32::MAX` and the cast back to `f32` rounds that to `2147483648.0`, so
`trunc(2147483904) = 2147483648 ≠ 2147483904`. -/
theorem trunc_moves_large_integer :
    ((2147483904 : ℚ) = ((2147483904 : ℤ) : ℚ)) ∧
    Math.trunc 2147483904 ≠ 2147483904 := by
  constructor
  · norm_num
  · have hf : (⌊(2147483904 : ℚ)⌋ : ℤ) = 2147483904 := by
      rw [show (2147483904 : ℚ) = ((2147483904 : ℤ) : ℚ) by norm_num, Int.floor_intCast]
    simp only [Math.trunc, if_neg (by norm_num : ¬ (2147483904 : ℚ) < 0)]
    rw [hf, show max (-2147483648) (min 2147483647 (2147483904 : ℤ)) = 2147483647 by omega,
      if_pos rfl]
    norm_num

/-- C7 (amended): on the range `|value| < 2^31 - 1` the ordering
`floor(v) ≤ v ≤ ceil(v)` holds and `ceil(v) - floor(v)` is `0` for
integral `v` and `1` otherwise; at `v = ±2^31` the compiled cast path
still returns `v` itself for both floor and ceil.  The ordering fails at
some `f32` values above `2^31`, e.g. `v = 3e9` (see the
counterexample). -/
theorem floor_le_value_le_ceil :
    (∀ value : ℚ, |value| < 2147483647 →
      Math.floor value ≤ value ∧ value ≤ Math.ceil value ∧
      ((∃ n : ℤ, value = (n : ℚ)) → Math.ceil value - Math.floor value = 0) ∧
      (¬ (∃ n : ℤ, value = (n : ℚ)) → Math.ceil value - Math.floor value = 1)) ∧
    (Math.floor 2147483648 = 2147483648 ∧ Math.ceil 2147483648 = 2147483648 ∧
      Math.floor (-2147483648) = -2147483648 ∧ Math.ceil (-2147483648) = -2147483648) := by
  refine ⟨?_, Math.floor_pos_two_pow_31, Math.ceil_pos_two_pow_31,
    Math.floor_neg_two_pow_31, Math.ceil_neg_two_pow_31⟩
  intro v h
  rw [Math.floor_eq_intFloor h, Math.ceil_eq_intCeil h]
  refine ⟨Int.floor_le v, Int.le_ceil v, ?_, ?_⟩
  · rintro ⟨n, rfl⟩
    rw [Int.ceil_intCast, Int.floor_intCast]
    ring
  · intro hni
    have hne : ((⌈v⌉ : ℤ) : ℚ) ≠ v := fun hc => hni ⟨⌈v⌉, hc.symm⟩
    rw [Math.intCeil_eq_intFloor_add_one hne]
    push_cast
    ring

/-- C7 witness: the non-integral clause applied at `value = 3.5`. -/
theorem floor_le_value_le_ceil_witness :
    Math.ceil (7/2) - Math.floor (7/2) = 1 :=
  (floor_le_value_le_ceil.1 (7/2)
      (by rw [abs_of_nonneg (by norm_num)]; norm_num)).2.2.2
    (by
      rintro ⟨n, hn⟩
      have h2 : (7 : ℚ) = 2 * (n : ℚ) := by linarith
      have h3 : (7 : ℤ) = 2 * n := by exact_mod_cast h2
      omega)

/-- C7 counterexample: at `value = 3e9` the saturated-and-rounded cast
gives `trunc(3e9) = 2147483648`, so `ceil(3e9) = 2147483649` in the
embedding (`2147483648.0` in the compiled code, whose `+ 1.0` is absorbed
by rounding) — either way far below `3e9`, so `value ≤ ceil(value)`
fails. -/
theorem ceil_below_large_value : ¬ ((3000000000 : ℚ) ≤ Math.ceil 3000000000) := by
  have hf : (⌊(3000000000 : ℚ)⌋ : ℤ) = 3000000000 := by
    rw [show (3000000000 : ℚ) = ((3000000000 : ℤ) : ℚ) by norm_num, Int.floor_intCast]
  have ht : Math.trunc 3000000000 = 2147483648 := by
    simp only [Math.trunc, if_neg (by norm_num : ¬ (3000000000 : ℚ) < 0)]
    rw [hf, show max (-2147483648) (min 2147483647 (3000000000 : ℤ)) = 2147483647 by omega,
      if_pos rfl]
  simp only [Math.ceil]
  rw [ht, if_neg (by norm_num), if_neg (by norm_num)]
  norm_num

/-- C8: `Math::sign` returns `1` on every non-negative value (the rational
`0` covers both IEEE zeros, and the source's `value < 0.0` test is numeric,
so `-0.0` lands in the `1.0` branch by design) and `-1` on every negative
value. -/
theorem sign_nonneg_one : ∀ value : ℚ,
    (0 ≤ value → Math.sign value = 1) ∧ (value < 0 → Math.sign value = -1) := by
  intro v
  constructor
  · intro h
    rw [Math.sign, if_neg (not_lt.mpr h)]
  · intro h
    rw [Math.sign, if_pos h]

/-- C8 witness: `sign 0 = 1` and `sign (-10) = -1` via the theorem. -/
theorem sign_nonneg_one_witness : Math.sign 0 = 1 ∧ Math.sign (-10) = -1 :=
  ⟨(sign_nonneg_one 0).1 (le_refl 0), (sign_nonneg_one (-10)).2 (by norm_num)⟩

/-- C9 (amended): the lerp boundary laws as exact-arithmetic identities of
the implemented formula: `lerp a b 0 = a`, `lerp a b 1 = b`, for `t`
outside `[0,1]` the clamped `lerp` returns the corresponding boundary
value, and `lerp_unclamped` is exactly the linear extrapolation
`a + t * (b - a)` for every `t`.  As compiled `f32` equalities the `t = 1`
boundary laws fail — rounding of `b - a` gives `lerp(1e8, 1.0, 1.0) = 0.0`
(see the counterexample). -/
theorem lerp_boundary_laws : ∀ a b t : ℚ,
    Math.lerp a b 0 = a ∧ Math.lerp a b 1 = b ∧
    (t ≤ 0 → Math.lerp a b t = a) ∧ (1 ≤ t → Math.lerp a b t = b) ∧
    Math.lerp_unclamped a b t = a + t * (b - a) := by
  intro a b t
  refine ⟨?_, ?_, ?_, ?_, rfl⟩
  · rw [Math.lerp, show Math.clampVal 0 0 1 = 0 by norm_num [Math.clampVal],
      Math.lerp_unclamped]
    ring
  · rw [Math.lerp, show Math.clampVal 1 0 1 = 1 by norm_num [Math.clampVal],
      Math.lerp_unclamped]
    ring
  · intro ht
    have hc : Math.clampVal t 0 1 = 0 := by
      simp only [Math.clampVal]
      split_ifs with h1 h2 <;> linarith
    rw [Math.lerp, hc, Math.lerp_unclamped]
    ring
  · intro ht
    have hc : Math.clampVal t 0 1 = 1 := by
      simp only [Math.clampVal]
      split_ifs with h1 h2 <;> linarith
    rw [Math.lerp, hc, Math.lerp_unclamped]
    ring

/-- C9 witness: the clamping clauses applied at `t = -3` and `t = 2`. -/
theorem lerp_boundary_laws_witness :
    Math.lerp 3 7 (-3) = 3 ∧ Math.lerp 3 7 2 = 7 :=
  ⟨(lerp_boundary_laws 3 7 (-3)).2.2.1 (by norm_num),
   (lerp_boundary_laws 3 7 2).2.2.2.1 (by norm_num)⟩

/-- C9 counterexample (compiled `f32` equality): with the per-operation
rounding applied (`lerpF32`), `lerp(1e8, 1.0, 1.0) = 0.0`, not `b = 1.0`:
the subtraction `b - a = -99999999` rounds to `-1e8`, which then cancels
`a` exactly.  So the boundary laws hold as exact identities of the
implemented formula but not as compiled `f32` equalities over all
inputs. -/
theorem lerp_f32_t1_misses_b :
    Math.lerpF32 100000000 1 1 = 0 ∧ Math.lerpF32 100000000 1 1 ≠ 1 := by
  have h0 : Math.lerpF32 100000000 1 1 = 0 := by
    rw [Math.lerpF32, show Math.clampVal 1 0 1 = 1 by norm_num [Math.clampVal],
      Math.lerp_unclampedF32,
      show (1 : ℚ) - 100000000 = -(99999999 : ℚ) by norm_num,
      Math.fl_neg_eval 99999999 100000000 (by norm_num) Math.fl_99999999_eval, one_mul,
      Math.fl_neg_eval 100000000 100000000 (by norm_num) Math.fl_1e8_eval,
      show (100000000 : ℚ) + -(100000000 : ℚ) = 0 by norm_num, Math.fl_zero]
  exact ⟨h0, by rw [h0]; norm_num⟩

/-- C10 (amended): `Math::clamp` delegates to `f32::clamp`, which asserts
`min <= max` — it returns a value exactly when `min ≤ max` and panics
otherwise (see the counterexample); `Math::abs_i32` returns an in-range
value for every `i32` input under release (wrapping) semantics, but
`abs_i32(i32::MIN)` is `i32::MIN` itself (negation wraps; debug builds
panic), not a positive absolute value. -/
theorem clamp_abs_totality : ∀ value lo hi : ℚ,
    ((Math.clamp value lo hi).isSome = true ↔ lo ≤ hi) ∧
    (∀ n : ℤ, -2147483648 ≤ n → n ≤ 2147483647 →
      -2147483648 ≤ Math.abs_i32 n ∧ Math.abs_i32 n ≤ 2147483647) ∧
    Math.abs_i32 (-2147483648) = -2147483648 := by
  intro v lo hi
  refine ⟨?_, ?_, ?_⟩
  · rw [Math.clamp]
    split_ifs with h
    · simp [h]
    · simp [h]
  · intro n h1 h2
    rw [Math.abs_i32]
    split_ifs with hn
    · rw [Math.wrap32]
      omega
    · omega
  · rw [Math.abs_i32, if_pos (by norm_num), Math.wrap32]
    norm_num

/-- C10 witness: the `abs_i32` range clause applied at `7`, and the clamp
clause applied at reversed bounds. -/
theorem clamp_abs_totality_witness :
    (-2147483648 ≤ Math.abs_i32 7 ∧ Math.abs_i32 7 ≤ 2147483647) ∧
    ((Math.clamp 5 0 10).isSome = true ↔ (0 : ℚ) ≤ 10) :=
  ⟨(clamp_abs_totality 0 0 0).2.1 7 (by norm_num) (by norm_num),
   (clamp_abs_totality 5 0 10).1⟩

/-- C10 counterexample: `clamp(0, 1, 0)` — a perfectly formed `(value, min,
max)` triple with `min > max` — panics in the source (`f32::clamp` asserts
`min <= max`), embedded as `none`; so not every triple yields a value. -/
theorem clamp_panics_on_reversed_bounds : Math.clamp 0 1 0 = none := by
  rw [Math.clamp, if_neg (by norm_num)]


/-!
Step-by-step exact evaluation of the embedded CORDIC at the fixture
angles, generated by mirroring the definitions in exact rational
arithmetic; every step is checked by `norm_num`.
-/

theorem rot_zero_1 : Math.cordicRotations 1 (0.6072529, 0, 0) = (((6072529 : ℚ)/10000000), ((-6072529 : ℚ)/10000000), ((3926991 : ℚ)/5000000)) := by
  rw [show (1 : ℕ) = 0 + 1 from rfl, Math.cordicRotations.eq_2, Math.cordicRotations.eq_1]
  norm_num [Math.cordicStep, Math.pow_i32, Math.powLoop, Math.abs_i32, Math.wrap32, Math.get_atan_for_cordic]

theorem rot_zero_2 : Math.cordicRotations 2 (0.6072529, 0, 0) = (((18217587 : ℚ)/20000000), ((-6072529 : ℚ)/20000000), ((1608753 : ℚ)/5000000)) := by
  rw [show (2 : ℕ) = 1 + 1 from rfl, Math.cordicRotations.eq_2, rot_zero_1]
  norm_num [Math.cordicStep, Math.pow_i32, Math.powLoop, Math.abs_i32, Math.wrap32, Math.get_atan_for_cordic]

theorem rot_zero_3 : Math.cordicRotations 3 (0.6072529, 0, 0) = (((78942877 : ℚ)/80000000), ((-6072529 : ℚ)/80000000), ((7677193 : ℚ)/100000000)) := by
  rw [show (3 : ℕ) = 2 + 1 from rfl, Math.cordicRotations.eq_2, rot_zero_2]
  norm_num [Math.cordicStep, Math.pow_i32, Math.powLoop, Math.abs_i32, Math.wrap32, Math.get_atan_for_cordic]

theorem rot_zero_4 : Math.cordicRotations 4 (0.6072529, 0, 0) = (((127523109 : ℚ)/128000000), ((6072529 : ℚ)/128000000), ((-23791533 : ℚ)/500000000)) := by
  rw [show (4 : ℕ) = 3 + 1 from rfl, Math.cordicRotations.eq_2, rot_zero_3]
  norm_num [Math.cordicStep, Math.pow_i32, Math.powLoop, Math.abs_i32, Math.wrap32, Math.get_atan_for_cordic]

theorem rot_zero_5 : Math.cordicRotations 5 (0.6072529, 0, 0) = (((2046442273 : ℚ)/2048000000), ((-6072529 : ℚ)/409600000), ((463617 : ℚ)/31250000)) := by
  rw [show (5 : ℕ) = 4 + 1 from rfl, Math.cordicRotations.eq_2, rot_zero_4]
  norm_num [Math.cordicStep, Math.pow_i32, Math.powLoop, Math.abs_i32, Math.wrap32, Math.get_atan_for_cordic]

theorem rot_zero_6 : Math.cordicRotations 6 (0.6072529, 0, 0) = (((65516515381 : ℚ)/65536000000), ((1074837633 : ℚ)/65536000000), ((-1640409 : ℚ)/100000000)) := by
  rw [show (6 : ℕ) = 5 + 1 from rfl, Math.cordicRotations.eq_2, rot_zero_5]
  norm_num [Math.cordicStep, Math.pow_i32, Math.powLoop, Math.abs_i32, Math.wrap32, Math.get_atan_for_cordic]

theorem rot_zero_7 : Math.cordicRotations 7 (0.6072529, 0, 0) = (((4194131822017 : ℚ)/4194304000000), ((3273093131 : ℚ)/4194304000000), ((-780361 : ℚ)/1000000000)) := by
  rw [show (7 : ℕ) = 6 + 1 from rfl, Math.cordicRotations.eq_2, rot_zero_6]
  norm_num [Math.cordicStep, Math.pow_i32, Math.powLoop, Math.abs_i32, Math.wrap32, Math.get_atan_for_cordic]

theorem rot_zero_8 : Math.cordicRotations 8 (0.6072529, 0, 0) = (((536852146311307 : ℚ)/536870912000000), ((-3775175901249 : ℚ)/536870912000000), ((351599 : ℚ)/50000000)) := by
  rw [show (8 : ℕ) = 7 + 1 from rfl, Math.cordicRotations.eq_2, rot_zero_7]
  norm_num [Math.cordicStep, Math.pow_i32, Math.powLoop, Math.abs_i32, Math.wrap32, Math.get_atan_for_cordic]

theorem rot_zero_9 : Math.cordicRotations 9 (0.6072529, 0, 0) = (((137437924631595841 : ℚ)/137438953472000000), ((-429592884408437 : ℚ)/137438953472000000), ((15628749 : ℚ)/5000000000)) := by
  rw [show (9 : ℕ) = 8 + 1 from rfl, Math.cordicRotations.eq_2, rot_zero_8]
  norm_num [Math.cordicStep, Math.pow_i32, Math.powLoop, Math.abs_i32, Math.wrap32, Math.get_atan_for_cordic]

theorem rot_zero_10 : Math.cordicRotations 10 (0.6072529, 0, 0) = (((70368647004261479029 : ℚ)/70368744177664000000), ((-82513632185523903 : ℚ)/70368744177664000000), ((183223 : ℚ)/156250000)) := by
  rw [show (10 : ℕ) = 9 + 1 from rfl, Math.cordicRotations.eq_2, rot_zero_9]
  norm_num [Math.cordicStep, Math.pow_i32, Math.powLoop, Math.abs_i32, Math.wrap32, Math.get_atan_for_cordic]

theorem rot_zero_11 : Math.cordicRotations 11 (0.6072529, 0, 0) = (((72057577045995940049599 : ℚ)/72057594037927936000000), ((-14125312353714997643 : ℚ)/72057594037927936000000), ((39213 : ℚ)/200000000)) := by
  rw [show (11 : ℕ) = 10 + 1 from rfl, Math.cordicRotations.eq_2, rot_zero_10]
  norm_num [Math.cordicStep, Math.pow_i32, Math.powLoop, Math.abs_i32, Math.wrap32, Math.get_atan_for_cordic]

theorem rot_zero_12 : Math.cordicRotations 12 (0.6072529, 0, 0) = (((29514786383102407787315279 : ℚ)/29514790517935282585600000), ((8625787469117524975347 : ℚ)/29514790517935282585600000), ((-14610811 : ℚ)/50000000000)) := by
  rw [show (12 : ℕ) = 11 + 1 from rfl, Math.cordicRotations.eq_2, rot_zero_11]
  norm_num [Math.cordicStep, Math.pow_i32, Math.powLoop, Math.abs_i32, Math.wrap32, Math.get_atan_for_cordic]

theorem rot_zero_13 : Math.cordicRotations 13 (0.6072529, 0, 0) = (((120892573650974931414368358131 : ℚ)/120892581961462917470617600000), ((5816439090402974511706033 : ℚ)/120892581961462917470617600000), ((-4807559 : ℚ)/100000000000)) := by
  rw [show (13 : ℕ) = 12 + 1 from rfl, Math.cordicRotations.eq_2, rot_zero_12]
  norm_num [Math.cordicStep, Math.pow_i32, Math.powLoop, Math.abs_i32, Math.wrap32, Math.get_atan_for_cordic]

theorem rot_zero_14 : Math.cordicRotations 14 (0.6072529, 0, 0) = (((198070393833045145709896020303037 : ℚ)/198070406285660843983859875840000), ((-14648860924478752842894507159 : ℚ)/198070406285660843983859875840000), ((462467 : ℚ)/6250000000)) := by
  rw [show (14 : ℕ) = 13 + 1 from rfl, Math.cordicRotations.eq_2, rot_zero_13]
  norm_num [Math.cordicStep, Math.pow_i32, Math.powLoop, Math.abs_i32, Math.wrap32, Math.get_atan_for_cordic]

theorem rot_zero_15 : Math.cordicRotations 15 (0.6072529, 0, 0) = (((3245185347209472591789689239539465367 : ℚ)/3245185536584267267831560205762560000), ((-41936543553614740868087584990019 : ℚ)/3245185536584267267831560205762560000), ((3239891 : ℚ)/250000000000)) := by
  rw [show (15 : ℕ) = 14 + 1 from rfl, Math.cordicRotations.eq_2, rot_zero_14]
  norm_num [Math.cordicStep, Math.pow_i32, Math.powLoop, Math.abs_i32, Math.wrap32, Math.get_atan_for_cordic]

theorem rot_zero_16 : Math.cordicRotations 16 (0.6072529, 0, 0) = (((850705867994372331531034222954534289087 : ℚ)/850705917302346158658436518579420528640), ((74840347521784990520967810183460911 : ℚ)/4253529586511730793292182592897102643200), ((-8779007 : ℚ)/500000000000)) := by
  rw [show (16 : ℕ) = 15 + 1 from rfl, Math.cordicRotations.eq_2, rot_zero_15]
  norm_num [Math.cordicStep, Math.pow_i32, Math.powLoop, Math.abs_i32, Math.wrap32, Math.get_atan_for_cordic]

theorem cordicFuel_one_zero_eval : Math.cordicFuel 1 0 = (((74840347521784990520967810183460911 : ℚ)/4253529586511730793292182592897102643200), ((850705867994372331531034222954534289087 : ℚ)/850705917302346158658436518579420528640)) := by
  rw [show (1 : ℕ) = 0 + 1 from rfl, Math.cordicFuel.eq_2,
    if_neg (by norm_num [Math.PI_OVER_2]), rot_zero_16]

theorem cordic_zero_eval : Math.cordic 0 = (((74840347521784990520967810183460911 : ℚ)/4253529586511730793292182592897102643200), ((850705867994372331531034222954534289087 : ℚ)/850705917302346158658436518579420528640)) := by
  rw [Math.cordic, Math.fuelNeeded_zero_eval, cordicFuel_one_zero_eval]

theorem rot_p2_1 : Math.cordicRotations 1 (0.6072529, 0, ((13176795 : ℚ)/8388608)) = (((6072529 : ℚ)/10000000), ((6072529 : ℚ)/10000000), ((514718545023 : ℚ)/655360000000)) := by
  rw [show (1 : ℕ) = 0 + 1 from rfl, Math.cordicRotations.eq_2, Math.cordicRotations.eq_1]
  norm_num [Math.cordicStep, Math.pow_i32, Math.powLoop, Math.abs_i32, Math.wrap32, Math.get_atan_for_cordic]

theorem rot_p2_2 : Math.cordicRotations 2 (0.6072529, 0, ((13176795 : ℚ)/8388608)) = (((6072529 : ℚ)/20000000), ((18217587 : ℚ)/20000000), ((210862453887 : ℚ)/655360000000)) := by
  rw [show (2 : ℕ) = 1 + 1 from rfl, Math.cordicRotations.eq_2, rot_p2_1]
  norm_num [Math.cordicStep, Math.pow_i32, Math.powLoop, Math.abs_i32, Math.wrap32, Math.get_atan_for_cordic]

theorem rot_p2_3 : Math.cordicRotations 3 (0.6072529, 0, ((13176795 : ℚ)/8388608)) = (((6072529 : ℚ)/80000000), ((78942877 : ℚ)/80000000), ((251566163579 : ℚ)/3276800000000)) := by
  rw [show (3 : ℕ) = 2 + 1 from rfl, Math.cordicRotations.eq_2, rot_p2_2]
  norm_num [Math.cordicStep, Math.pow_i32, Math.powLoop, Math.abs_i32, Math.wrap32, Math.get_atan_for_cordic]

theorem rot_p2_4 : Math.cordicRotations 4 (0.6072529, 0, ((13176795 : ℚ)/8388608)) = (((-6072529 : ℚ)/128000000), ((127523109 : ℚ)/128000000), ((-779601436569 : ℚ)/16384000000000)) := by
  rw [show (4 : ℕ) = 3 + 1 from rfl, Math.cordicRotations.eq_2, rot_p2_3]
  norm_num [Math.cordicStep, Math.pow_i32, Math.powLoop, Math.abs_i32, Math.wrap32, Math.get_atan_for_cordic]

theorem rot_p2_5 : Math.cordicRotations 5 (0.6072529, 0, ((13176795 : ℚ)/8388608)) = (((6072529 : ℚ)/409600000), ((2046442273 : ℚ)/2048000000), ((243068346471 : ℚ)/16384000000000)) := by
  rw [show (5 : ℕ) = 4 + 1 from rfl, Math.cordicRotations.eq_2, rot_p2_4]
  norm_num [Math.cordicStep, Math.pow_i32, Math.powLoop, Math.abs_i32, Math.wrap32, Math.get_atan_for_cordic]

theorem rot_p2_6 : Math.cordicRotations 6 (0.6072529, 0, ((13176795 : ℚ)/8388608)) = (((-1074837633 : ℚ)/65536000000), ((65516515381 : ℚ)/65536000000), ((-53753018757 : ℚ)/3276800000000)) := by
  rw [show (6 : ℕ) = 5 + 1 from rfl, Math.cordicRotations.eq_2, rot_p2_5]
  norm_num [Math.cordicStep, Math.pow_i32, Math.powLoop, Math.abs_i32, Math.wrap32, Math.get_atan_for_cordic]

theorem rot_p2_7 : Math.cordicRotations 7 (0.6072529, 0, ((13176795 : ℚ)/8388608)) = (((-3273093131 : ℚ)/4194304000000), ((4194131822017 : ℚ)/4194304000000), ((-12785917849 : ℚ)/16384000000000)) := by
  rw [show (7 : ℕ) = 6 + 1 from rfl, Math.cordicRotations.eq_2, rot_p2_6]
  norm_num [Math.cordicStep, Math.pow_i32, Math.powLoop, Math.abs_i32, Math.wrap32, Math.get_atan_for_cordic]

theorem rot_p2_8 : Math.cordicRotations 8 (0.6072529, 0, ((13176795 : ℚ)/8388608)) = (((3775175901249 : ℚ)/536870912000000), ((536852146311307 : ℚ)/536870912000000), ((23042295419 : ℚ)/3276800000000)) := by
  rw [show (8 : ℕ) = 7 + 1 from rfl, Math.cordicRotations.eq_2, rot_p2_7]
  norm_num [Math.cordicStep, Math.pow_i32, Math.powLoop, Math.abs_i32, Math.wrap32, Math.get_atan_for_cordic]

theorem rot_p2_9 : Math.cordicRotations 9 (0.6072529, 0, ((13176795 : ℚ)/8388608)) = (((429592884408437 : ℚ)/137438953472000000), ((137437924631595841 : ℚ)/137438953472000000), ((256059007491 : ℚ)/81920000000000)) := by
  rw [show (9 : ℕ) = 8 + 1 from rfl, Math.cordicRotations.eq_2, rot_p2_8]
  norm_num [Math.cordicStep, Math.pow_i32, Math.powLoop, Math.abs_i32, Math.wrap32, Math.get_atan_for_cordic]

theorem rot_p2_10 : Math.cordicRotations 10 (0.6072529, 0, ((13176795 : ℚ)/8388608)) = (((82513632185523903 : ℚ)/70368744177664000000), ((70368647004261479029 : ℚ)/70368744177664000000), ((96059204099 : ℚ)/81920000000000)) := by
  rw [show (10 : ℕ) = 9 + 1 from rfl, Math.cordicRotations.eq_2, rot_p2_9]
  norm_num [Math.cordicStep, Math.pow_i32, Math.powLoop, Math.abs_i32, Math.wrap32, Math.get_atan_for_cordic]

theorem rot_p2_11 : Math.cordicRotations 11 (0.6072529, 0, ((13176795 : ℚ)/8388608)) = (((14125312353714997643 : ℚ)/72057594037927936000000), ((72057577045995940049599 : ℚ)/72057594037927936000000), ((642369147 : ℚ)/3276800000000)) := by
  rw [show (11 : ℕ) = 10 + 1 from rfl, Math.cordicRotations.eq_2, rot_p2_10]
  norm_num [Math.cordicStep, Math.pow_i32, Math.powLoop, Math.abs_i32, Math.wrap32, Math.get_atan_for_cordic]

theorem rot_p2_12 : Math.cordicRotations 12 (0.6072529, 0, ((13176795 : ℚ)/8388608)) = (((-8625787469117524975347 : ℚ)/29514790517935282585600000), ((29514786383102407787315279 : ℚ)/29514790517935282585600000), ((-119703844337 : ℚ)/409600000000000)) := by
  rw [show (12 : ℕ) = 11 + 1 from rfl, Math.cordicRotations.eq_2, rot_p2_11]
  norm_num [Math.cordicStep, Math.pow_i32, Math.powLoop, Math.abs_i32, Math.wrap32, Math.get_atan_for_cordic]

theorem rot_p2_13 : Math.cordicRotations 13 (0.6072529, 0, ((13176795 : ℚ)/8388608)) = (((-5816439090402974511706033 : ℚ)/120892581961462917470617600000), ((120892573650974931414368358131 : ℚ)/120892581961462917470617600000), ((-19703842289 : ℚ)/409600000000000)) := by
  rw [show (13 : ℕ) = 12 + 1 from rfl, Math.cordicRotations.eq_2, rot_p2_12]
  norm_num [Math.cordicStep, Math.pow_i32, Math.powLoop, Math.abs_i32, Math.wrap32, Math.get_atan_for_cordic]

theorem rot_p2_14 : Math.cordicRotations 14 (0.6072529, 0, ((13176795 : ℚ)/8388608)) = (((14648860924478752842894507159 : ℚ)/198070406285660843983859875840000), ((198070393833045145709896020303037 : ℚ)/198070406285660843983859875840000), ((30296156687 : ℚ)/409600000000000)) := by
  rw [show (14 : ℕ) = 13 + 1 from rfl, Math.cordicRotations.eq_2, rot_p2_13]
  norm_num [Math.cordicStep, Math.pow_i32, Math.powLoop, Math.abs_i32, Math.wrap32, Math.get_atan_for_cordic]

theorem rot_p2_15 : Math.cordicRotations 15 (0.6072529, 0, ((13176795 : ℚ)/8388608)) = (((41936543553614740868087584990019 : ℚ)/3245185536584267267831560205762560000), ((3245185347209472591789689239539465367 : ℚ)/3245185536584267267831560205762560000), ((26480783947 : ℚ)/2048000000000000)) := by
  rw [show (15 : ℕ) = 14 + 1 from rfl, Math.cordicRotations.eq_2, rot_p2_14]
  norm_num [Math.cordicStep, Math.pow_i32, Math.powLoop, Math.abs_i32, Math.wrap32, Math.get_atan_for_cordic]

theorem rot_p2_16 : Math.cordicRotations 16 (0.6072529, 0, ((13176795 : ℚ)/8388608)) = (((-74840347521784990520967810183460911 : ℚ)/4253529586511730793292182592897102643200), ((850705867994372331531034222954534289087 : ℚ)/850705917302346158658436518579420528640), ((-36019215797 : ℚ)/2048000000000000)) := by
  rw [show (16 : ℕ) = 15 + 1 from rfl, Math.cordicRotations.eq_2, rot_p2_15]
  norm_num [Math.cordicStep, Math.pow_i32, Math.powLoop, Math.abs_i32, Math.wrap32, Math.get_atan_for_cordic]

theorem cordic_pi_over_2_eval : Math.cordic Math.PI_OVER_2 = (((850705867994372331531034222954534289087 : ℚ)/850705917302346158658436518579420528640), ((-74840347521784990520967810183460911 : ℚ)/4253529586511730793292182592897102643200)) := by
  rw [Math.cordic, Math.fuelNeeded_pi_over_2_eval,
    show Math.PI_OVER_2 = ((13176795 : ℚ)/8388608) by norm_num [Math.PI_OVER_2],
    show (2 : ℕ) = 1 + 1 from rfl, Math.cordicFuel.eq_2,
    if_neg (by norm_num [Math.PI_OVER_2]), rot_p2_16]

theorem cordic_pi_eval : Math.cordic Math.PI = (((-74840347521784990520967810183460911 : ℚ)/4253529586511730793292182592897102643200), ((-850705867994372331531034222954534289087 : ℚ)/850705917302346158658436518579420528640)) := by
  rw [Math.cordic, Math.fuelNeeded_pi_eval,
    show (3 : ℕ) = 2 + 1 from rfl, Math.cordicFuel.eq_2,
    if_pos (Or.inr (by norm_num [Math.PI, Math.PI_OVER_2])),
    if_neg (by norm_num [Math.PI]),
    show Math.PI - Math.PI = 0 by ring,
    Math.cordicFuel_succ 1 0 (by rw [Math.fuelNeeded_zero_eval]),
    cordicFuel_one_zero_eval]
  norm_num [Math.negate_tuple]

theorem red_m100_1 : Math.cordicFuel 65 (-100 : ℚ) = Math.negate_tuple (Math.cordicFuel 64 ((-406253605 : ℚ)/4194304)) := by
  rw [show (65 : ℕ) = 64 + 1 from rfl, Math.cordicFuel.eq_2,
    if_pos (Or.inl (by norm_num [Math.PI_OVER_2])), if_pos (by norm_num),
    show (-100 : ℚ) + Math.PI = ((-406253605 : ℚ)/4194304) by norm_num [Math.PI]]

theorem red_m100_2 : Math.cordicFuel 64 ((-406253605 : ℚ)/4194304) = Math.negate_tuple (Math.cordicFuel 63 ((-196538405 : ℚ)/2097152)) := by
  rw [show (64 : ℕ) = 63 + 1 from rfl, Math.cordicFuel.eq_2,
    if_pos (Or.inl (by norm_num [Math.PI_OVER_2])), if_pos (by norm_num),
    show ((-406253605 : ℚ)/4194304) + Math.PI = ((-196538405 : ℚ)/2097152) by norm_num [Math.PI]]

theorem red_m100_3 : Math.cordicFuel 63 ((-196538405 : ℚ)/2097152) = Math.negate_tuple (Math.cordicFuel 62 ((-379900015 : ℚ)/4194304)) := by
  rw [show (63 : ℕ) = 62 + 1 from rfl, Math.cordicFuel.eq_2,
    if_pos (Or.inl (by norm_num [Math.PI_OVER_2])), if_pos (by norm_num),
    show ((-196538405 : ℚ)/2097152) + Math.PI = ((-379900015 : ℚ)/4194304) by norm_num [Math.PI]]

theorem red_m100_4 : Math.cordicFuel 62 ((-379900015 : ℚ)/4194304) = Math.negate_tuple (Math.cordicFuel 61 ((-91680805 : ℚ)/1048576)) := by
  rw [show (62 : ℕ) = 61 + 1 from rfl, Math.cordicFuel.eq_2,
    if_pos (Or.inl (by norm_num [Math.PI_OVER_2])), if_pos (by norm_num),
    show ((-379900015 : ℚ)/4194304) + Math.PI = ((-91680805 : ℚ)/1048576) by norm_num [Math.PI]]

theorem red_m100_5 : Math.cordicFuel 61 ((-91680805 : ℚ)/1048576) = Math.negate_tuple (Math.cordicFuel 60 ((-353546425 : ℚ)/4194304)) := by
  rw [show (61 : ℕ) = 60 + 1 from rfl, Math.cordicFuel.eq_2,
    if_pos (Or.inl (by norm_num [Math.PI_OVER_2])), if_pos (by norm_num),
    show ((-91680805 : ℚ)/1048576) + Math.PI = ((-353546425 : ℚ)/4194304) by norm_num [Math.PI]]

theorem red_m100_6 : Math.cordicFuel 60 ((-353546425 : ℚ)/4194304) = Math.negate_tuple (Math.cordicFuel 59 ((-170184815 : ℚ)/2097152)) := by
  rw [show (60 : ℕ) = 59 + 1 from rfl, Math.cordicFuel.eq_2,
    if_pos (Or.inl (by norm_num [Math.PI_OVER_2])), if_pos (by norm_num),
    show ((-353546425 : ℚ)/4194304) + Math.PI = ((-170184815 : ℚ)/2097152) by norm_num [Math.PI]]

theorem red_m100_7 : Math.cordicFuel 59 ((-170184815 : ℚ)/2097152) = Math.negate_tuple (Math.cordicFuel 58 ((-327192835 : ℚ)/4194304)) := by
  rw [show (59 : ℕ) = 58 + 1 from rfl, Math.cordicFuel.eq_2,
    if_pos (Or.inl (by norm_num [Math.PI_OVER_2])), if_pos (by norm_num),
    show ((-170184815 : ℚ)/2097152) + Math.PI = ((-327192835 : ℚ)/4194304) by norm_num [Math.PI]]

theorem red_m100_8 : Math.cordicFuel 58 ((-327192835 : ℚ)/4194304) = Math.negate_tuple (Math.cordicFuel 57 ((-39252005 : ℚ)/524288)) := by
  rw [show (58 : ℕ) = 57 + 1 from rfl, Math.cordicFuel.eq_2,
    if_pos (Or.inl (by norm_num [Math.PI_OVER_2])), if_pos (by norm_num),
    show ((-327192835 : ℚ)/4194304) + Math.PI = ((-39252005 : ℚ)/524288) by norm_num [Math.PI]]

theorem red_m100_9 : Math.cordicFuel 57 ((-39252005 : ℚ)/524288) = Math.negate_tuple (Math.cordicFuel 56 ((-300839245 : ℚ)/4194304)) := by
  rw [show (57 : ℕ) = 56 + 1 from rfl, Math.cordicFuel.eq_2,
    if_pos (Or.inl (by norm_num [Math.PI_OVER_2])), if_pos (by norm_num),
    show ((-39252005 : ℚ)/524288) + Math.PI = ((-300839245 : ℚ)/4194304) by norm_num [Math.PI]]

theorem red_m100_10 : Math.cordicFuel 56 ((-300839245 : ℚ)/4194304) = Math.negate_tuple (Math.cordicFuel 55 ((-143831225 : ℚ)/2097152)) := by
  rw [show (56 : ℕ) = 55 + 1 from rfl, Math.cordicFuel.eq_2,
    if_pos (Or.inl (by norm_num [Math.PI_OVER_2])), if_pos (by norm_num),
    show ((-300839245 : ℚ)/4194304) + Math.PI = ((-143831225 : ℚ)/2097152) by norm_num [Math.PI]]

theorem red_m100_11 : Math.cordicFuel 55 ((-143831225 : ℚ)/2097152) = Math.negate_tuple (Math.cordicFuel 54 ((-274485655 : ℚ)/4194304)) := by
  rw [show (55 : ℕ) = 54 + 1 from rfl, Math.cordicFuel.eq_2,
    if_pos (Or.inl (by norm_num [Math.PI_OVER_2])), if_pos (by norm_num),
    show ((-143831225 : ℚ)/2097152) + Math.PI = ((-274485655 : ℚ)/4194304) by norm_num [Math.PI]]

theorem red_m100_12 : Math.cordicFuel 54 ((-274485655 : ℚ)/4194304) = Math.negate_tuple (Math.cordicFuel 53 ((-65327215 : ℚ)/1048576)) := by
  rw [show (54 : ℕ) = 53 + 1 from rfl, Math.cordicFuel.eq_2,
    if_pos (Or.inl (by norm_num [Math.PI_OVER_2])), if_pos (by norm_num),
    show ((-274485655 : ℚ)/4194304) + Math.PI = ((-65327215 : ℚ)/1048576) by norm_num [Math.PI]]

theorem red_m100_13 : Math.cordicFuel 53 ((-65327215 : ℚ)/1048576) = Math.negate_tuple (Math.cordicFuel 52 ((-248132065 : ℚ)/4194304)) := by
  rw [show (53 : ℕ) = 52 + 1 from rfl, Math.cordicFuel.eq_2,
    if_pos (Or.inl (by norm_num [Math.PI_OVER_2])), if_pos (by norm_num),
    show ((-65327215 : ℚ)/1048576) + Math.PI = ((-248132065 : ℚ)/4194304) by norm_num [Math.PI]]

theorem red_m100_14 : Math.cordicFuel 52 ((-248132065 : ℚ)/4194304) = Math.negate_tuple (Math.cordicFuel 51 ((-117477635 : ℚ)/2097152)) := by
  rw [show (52 : ℕ) = 51 + 1 from rfl, Math.cordicFuel.eq_2,
    if_pos (Or.inl (by norm_num [Math.PI_OVER_2])), if_pos (by norm_num),
    show ((-248132065 : ℚ)/4194304) + Math.PI = ((-117477635 : ℚ)/2097152) by norm_num [Math.PI]]

theorem red_m100_15 : Math.cordicFuel 51 ((-117477635 : ℚ)/2097152) = Math.negate_tuple (Math.cordicFuel 50 ((-221778475 : ℚ)/4194304)) := by
  rw [show (51 : ℕ) = 50 + 1 from rfl, Math.cordicFuel.eq_2,
    if_pos (Or.inl (by norm_num [Math.PI_OVER_2])), if_pos (by norm_num),
    show ((-117477635 : ℚ)/2097152) + Math.PI = ((-221778475 : ℚ)/4194304) by norm_num [Math.PI]]

theorem red_m100_16 : Math.cordicFuel 50 ((-221778475 : ℚ)/4194304) = Math.negate_tuple (Math.cordicFuel 49 ((-13037605 : ℚ)/262144)) := by
  rw [show (50 : ℕ) = 49 + 1 from rfl, Math.cordicFuel.eq_2,
    if_pos (Or.inl (by norm_num [Math.PI_OVER_2])), if_pos (by norm_num),
    show ((-221778475 : ℚ)/4194304) + Math.PI = ((-13037605 : ℚ)/262144) by norm_num [Math.PI]]

theorem red_m100_17 : Math.cordicFuel 49 ((-13037605 : ℚ)/262144) = Math.negate_tuple (Math.cordicFuel 48 ((-195424885 : ℚ)/4194304)) := by
  rw [show (49 : ℕ) = 48 + 1 from rfl, Math.cordicFuel.eq_2,
    if_pos (Or.inl (by norm_num [Math.PI_OVER_2])), if_pos (by norm_num),
    show ((-13037605 : ℚ)/262144) + Math.PI = ((-195424885 : ℚ)/4194304) by norm_num [Math.PI]]

theorem red_m100_18 : Math.cordicFuel 48 ((-195424885 : ℚ)/4194304) = Math.negate_tuple (Math.cordicFuel 47 ((-91124045 : ℚ)/2097152)) := by
  rw [show (48 : ℕ) = 47 + 1 from rfl, Math.cordicFuel.eq_2,
    if_pos (Or.inl (by norm_num [Math.PI_OVER_2])), if_pos (by norm_num),
    show ((-195424885 : ℚ)/4194304) + Math.PI = ((-91124045 : ℚ)/2097152) by norm_num [Math.PI]]

theorem red_m100_19 : Math.cordicFuel 47 ((-91124045 : ℚ)/2097152) = Math.negate_tuple (Math.cordicFuel 46 ((-169071295 : ℚ)/4194304)) := by
  rw [show (47 : ℕ) = 46 + 1 from rfl, Math.cordicFuel.eq_2,
    if_pos (Or.inl (by norm_num [Math.PI_OVER_2])), if_pos (by norm_num),
    show ((-91124045 : ℚ)/2097152) + Math.PI = ((-169071295 : ℚ)/4194304) by norm_num [Math.PI]]

theorem red_m100_20 : Math.cordicFuel 46 ((-169071295 : ℚ)/4194304) = Math.negate_tuple (Math.cordicFuel 45 ((-38973625 : ℚ)/1048576)) := by
  rw [show (46 : ℕ) = 45 + 1 from rfl, Math.cordicFuel.eq_2,
    if_pos (Or.inl (by norm_num [Math.PI_OVER_2])), if_pos (by norm_num),
    show ((-169071295 : ℚ)/4194304) + Math.PI = ((-38973625 : ℚ)/1048576) by norm_num [Math.PI]]

theorem red_m100_21 : Math.cordicFuel 45 ((-38973625 : ℚ)/1048576) = Math.negate_tuple (Math.cordicFuel 44 ((-142717705 : ℚ)/4194304)) := by
  rw [show (45 : ℕ) = 44 + 1 from rfl, Math.cordicFuel.eq_2,
    if_pos (Or.inl (by norm_num [Math.PI_OVER_2])), if_pos (by norm_num),
    show ((-38973625 : ℚ)/1048576) + Math.PI = ((-142717705 : ℚ)/4194304) by norm_num [Math.PI]]

theorem red_m100_22 : Math.cordicFuel 44 ((-142717705 : ℚ)/4194304) = Math.negate_tuple (Math.cordicFuel 43 ((-64770455 : ℚ)/2097152)) := by
  rw [show (44 : ℕ) = 43 + 1 from rfl, Math.cordicFuel.eq_2,
    if_pos (Or.inl (by norm_num [Math.PI_OVER_2])), if_pos (by norm_num),
    show ((-142717705 : ℚ)/4194304) + Math.PI = ((-64770455 : ℚ)/2097152) by norm_num [Math.PI]]

theorem red_m100_23 : Math.cordicFuel 43 ((-64770455 : ℚ)/2097152) = Math.negate_tuple (Math.cordicFuel 42 ((-116364115 : ℚ)/4194304)) := by
  rw [show (43 : ℕ) = 42 + 1 from rfl, Math.cordicFuel.eq_2,
    if_pos (Or.inl (by norm_num [Math.PI_OVER_2])), if_pos (by norm_num),
    show ((-64770455 : ℚ)/2097152) + Math.PI = ((-116364115 : ℚ)/4194304) by norm_num [Math.PI]]

theorem red_m100_24 : Math.cordicFuel 42 ((-116364115 : ℚ)/4194304) = Math.negate_tuple (Math.cordicFuel 41 ((-12898415 : ℚ)/524288)) := by
  rw [show (42 : ℕ) = 41 + 1 from rfl, Math.cordicFuel.eq_2,
    if_pos (Or.inl (by norm_num [Math.PI_OVER_2])), if_pos (by norm_num),
    show ((-116364115 : ℚ)/4194304) + Math.PI = ((-12898415 : ℚ)/524288) by norm_num [Math.PI]]

theorem red_m100_25 : Math.cordicFuel 41 ((-12898415 : ℚ)/524288) = Math.negate_tuple (Math.cordicFuel 40 ((-90010525 : ℚ)/4194304)) := by
  rw [show (41 : ℕ) = 40 + 1 from rfl, Math.cordicFuel.eq_2,
    if_pos (Or.inl (by norm_num [Math.PI_OVER_2])), if_pos (by norm_num),
    show ((-12898415 : ℚ)/524288) + Math.PI = ((-90010525 : ℚ)/4194304) by norm_num [Math.PI]]

theorem red_m100_26 : Math.cordicFuel 40 ((-90010525 : ℚ)/4194304) = Math.negate_tuple (Math.cordicFuel 39 ((-38416865 : ℚ)/2097152)) := by
  rw [show (40 : ℕ) = 39 + 1 from rfl, Math.cordicFuel.eq_2,
    if_pos (Or.inl (by norm_num [Math.PI_OVER_2])), if_pos (by norm_num),
    show ((-90010525 : ℚ)/4194304) + Math.PI = ((-38416865 : ℚ)/2097152) by norm_num [Math.PI]]

theorem red_m100_27 : Math.cordicFuel 39 ((-38416865 : ℚ)/2097152) = Math.negate_tuple (Math.cordicFuel 38 ((-63656935 : ℚ)/4194304)) := by
  rw [show (39 : ℕ) = 38 + 1 from rfl, Math.cordicFuel.eq_2,
    if_pos (Or.inl (by norm_num [Math.PI_OVER_2])), if_pos (by norm_num),
    show ((-38416865 : ℚ)/2097152) + Math.PI = ((-63656935 : ℚ)/4194304) by norm_num [Math.PI]]

theorem red_m100_28 : Math.cordicFuel 38 ((-63656935 : ℚ)/4194304) = Math.negate_tuple (Math.cordicFuel 37 ((-12620035 : ℚ)/1048576)) := by
  rw [show (38 : ℕ) = 37 + 1 from rfl, Math.cordicFuel.eq_2,
    if_pos (Or.inl (by norm_num [Math.PI_OVER_2])), if_pos (by norm_num),
    show ((-63656935 : ℚ)/4194304) + Math.PI = ((-12620035 : ℚ)/1048576) by norm_num [Math.PI]]

theorem red_m100_29 : Math.cordicFuel 37 ((-12620035 : ℚ)/1048576) = Math.negate_tuple (Math.cordicFuel 36 ((-37303345 : ℚ)/4194304)) := by
  rw [show (37 : ℕ) = 36 + 1 from rfl, Math.cordicFuel.eq_2,
    if_pos (Or.inl (by norm_num [Math.PI_OVER_2])), if_pos (by norm_num),
    show ((-12620035 : ℚ)/1048576) + Math.PI = ((-37303345 : ℚ)/4194304) by norm_num [Math.PI]]

theorem red_m100_30 : Math.cordicFuel 36 ((-37303345 : ℚ)/4194304) = Math.negate_tuple (Math.cordicFuel 35 ((-12063275 : ℚ)/2097152)) := by
  rw [show (36 : ℕ) = 35 + 1 from rfl, Math.cordicFuel.eq_2,
    if_pos (Or.inl (by norm_num [Math.PI_OVER_2])), if_pos (by norm_num),
    show ((-37303345 : ℚ)/4194304) + Math.PI = ((-12063275 : ℚ)/2097152) by norm_num [Math.PI]]

theorem red_m100_31 : Math.cordicFuel 35 ((-12063275 : ℚ)/2097152) = Math.negate_tuple (Math.cordicFuel 34 ((-10949755 : ℚ)/4194304)) := by
  rw [show (35 : ℕ) = 34 + 1 from rfl, Math.cordicFuel.eq_2,
    if_pos (Or.inl (by norm_num [Math.PI_OVER_2])), if_pos (by norm_num),
    show ((-12063275 : ℚ)/2097152) + Math.PI = ((-10949755 : ℚ)/4194304) by norm_num [Math.PI]]

theorem red_m100_32 : Math.cordicFuel 34 ((-10949755 : ℚ)/4194304) = Math.negate_tuple (Math.cordicFuel 33 ((69595 : ℚ)/131072)) := by
  rw [show (34 : ℕ) = 33 + 1 from rfl, Math.cordicFuel.eq_2,
    if_pos (Or.inl (by norm_num [Math.PI_OVER_2])), if_pos (by norm_num),
    show ((-10949755 : ℚ)/4194304) + Math.PI = ((69595 : ℚ)/131072) by norm_num [Math.PI]]

theorem rot_m100_1 : Math.cordicRotations 1 (0.6072529, 0, ((69595 : ℚ)/131072)) = (((6072529 : ℚ)/10000000), ((6072529 : ℚ)/10000000), ((-2605368193 : ℚ)/10240000000)) := by
  rw [show (1 : ℕ) = 0 + 1 from rfl, Math.cordicRotations.eq_2, Math.cordicRotations.eq_1]
  norm_num [Math.cordicStep, Math.pow_i32, Math.powLoop, Math.abs_i32, Math.wrap32, Math.get_atan_for_cordic]

theorem rot_m100_2 : Math.cordicRotations 2 (0.6072529, 0, ((69595 : ℚ)/131072)) = (((18217587 : ℚ)/20000000), ((6072529 : ℚ)/20000000), ((2142383231 : ℚ)/10240000000)) := by
  rw [show (2 : ℕ) = 1 + 1 from rfl, Math.cordicRotations.eq_2, rot_m100_1]
  norm_num [Math.cordicStep, Math.pow_i32, Math.powLoop, Math.abs_i32, Math.wrap32, Math.get_atan_for_cordic]

theorem rot_m100_3 : Math.cordicRotations 3 (0.6072529, 0, ((69595 : ℚ)/131072)) = (((66797819 : ℚ)/80000000), ((42507703 : ℚ)/80000000), ((-1830991749 : ℚ)/51200000000)) := by
  rw [show (3 : ℕ) = 2 + 1 from rfl, Math.cordicRotations.eq_2, rot_m100_2]
  norm_num [Math.cordicStep, Math.pow_i32, Math.powLoop, Math.abs_i32, Math.wrap32, Math.get_atan_for_cordic]

theorem rot_m100_4 : Math.cordicRotations 4 (0.6072529, 0, ((69595 : ℚ)/131072)) = (((115378051 : ℚ)/128000000), ((54652761 : ℚ)/128000000), ((22679920231 : ℚ)/256000000000)) := by
  rw [show (4 : ℕ) = 3 + 1 from rfl, Math.cordicRotations.eq_2, rot_m100_3]
  norm_num [Math.cordicStep, Math.pow_i32, Math.powLoop, Math.abs_i32, Math.wrap32, Math.get_atan_for_cordic]

theorem rot_m100_5 : Math.cordicRotations 5 (0.6072529, 0, ((69595 : ℚ)/131072)) = (((358279211 : ℚ)/409600000), ((989822227 : ℚ)/2048000000), ((6700704871 : ℚ)/256000000000)) := by
  rw [show (5 : ℕ) = 4 + 1 from rfl, Math.cordicRotations.eq_2, rot_m100_4]
  norm_num [Math.cordicStep, Math.pow_i32, Math.powLoop, Math.abs_i32, Math.wrap32, Math.get_atan_for_cordic]

theorem rot_m100_6 : Math.cordicRotations 6 (0.6072529, 0, ((69595 : ℚ)/131072)) = (((56334851533 : ℚ)/65536000000), ((33465707319 : ℚ)/65536000000), ((-1296692633 : ℚ)/256000000000)) := by
  rw [show (6 : ℕ) = 5 + 1 from rfl, Math.cordicRotations.eq_2, rot_m100_5]
  norm_num [Math.cordicStep, Math.pow_i32, Math.powLoop, Math.abs_i32, Math.wrap32, Math.get_atan_for_cordic]

theorem rot_m100_7 : Math.cordicRotations 7 (0.6072529, 0, ((69595 : ℚ)/131072)) = (((3638896205431 : ℚ)/4194304000000), ((2085470416883 : ℚ)/4194304000000), ((2702981991 : ℚ)/256000000000)) := by
  rw [show (7 : ℕ) = 6 + 1 from rfl, Math.cordicRotations.eq_2, rot_m100_6]
  norm_num [Math.cordicStep, Math.pow_i32, Math.powLoop, Math.abs_i32, Math.wrap32, Math.get_atan_for_cordic]

theorem rot_m100_8 : Math.cordicRotations 8 (0.6072529, 0, ((69595 : ℚ)/131072)) = (((92738648775657 : ℚ)/107374182400000), ((54115821913291 : ℚ)/107374182400000), ((140604539 : ℚ)/51200000000)) := by
  rw [show (8 : ℕ) = 7 + 1 from rfl, Math.cordicRotations.eq_2, rot_m100_7]
  norm_num [Math.cordicStep, Math.pow_i32, Math.powLoop, Math.abs_i32, Math.wrap32, Math.get_atan_for_cordic]

theorem rot_m100_9 : Math.cordicRotations 9 (0.6072529, 0, ((69595 : ℚ)/131072)) = (((23686978264654901 : ℚ)/27487790694400000), ((13946389058578153 : ℚ)/27487790694400000), ((-1484861181 : ℚ)/1280000000000)) := by
  rw [show (9 : ℕ) = 8 + 1 from rfl, Math.cordicRotations.eq_2, rot_m100_8]
  norm_num [Math.cordicStep, Math.pow_i32, Math.powLoop, Math.abs_i32, Math.wrap32, Math.get_atan_for_cordic]

theorem rot_m100_10 : Math.cordicRotations 10 (0.6072529, 0, ((69595 : ℚ)/131072)) = (((2428335852112377493 : ℚ)/2814749767106560000), ((1423372843945471887 : ℚ)/2814749767106560000), ((1015135747 : ℚ)/1280000000000)) := by
  rw [show (10 : ℕ) = 9 + 1 from rfl, Math.cordicRotations.eq_2, rot_m100_9]
  norm_num [Math.cordicStep, Math.pow_i32, Math.powLoop, Math.abs_i32, Math.wrap32, Math.get_atan_for_cordic]

theorem rot_m100_11 : Math.cordicRotations 11 (0.6072529, 0, ((69595 : ℚ)/131072)) = (((497038507943825816189 : ℚ)/576460752303423488000), ((1459962128052275589781 : ℚ)/2882303761517117440000), ((-234863869 : ℚ)/1280000000000)) := by
  rw [show (11 : ℕ) = 10 + 1 from rfl, Math.cordicRotations.eq_2, rot_m100_10]
  norm_num [Math.cordicStep, Math.pow_i32, Math.powLoop, Math.abs_i32, Math.wrap32, Math.get_atan_for_cordic]

theorem rot_m100_12 : Math.cordicRotations 12 (0.6072529, 0, ((69595 : ℚ)/131072)) = (((5091134283472828633365141 : ℚ)/5902958103587056517120000), ((2987517245711341278790543 : ℚ)/5902958103587056517120000), ((1950680463 : ℚ)/6400000000000)) := by
  rw [show (12 : ℕ) = 11 + 1 from rfl, Math.cordicRotations.eq_2, rot_m100_11]
  norm_num [Math.cordicStep, Math.pow_i32, Math.powLoop, Math.abs_i32, Math.wrap32, Math.get_atan_for_cordic]

theorem rot_m100_13 : Math.cordicRotations 13 (0.6072529, 0, ((69595 : ℚ)/131072)) = (((20850298507858994740984826993 : ℚ)/24178516392292583494123520000), ((12241961772717126706559429269 : ℚ)/24178516392292583494123520000), ((388180431 : ℚ)/6400000000000)) := by
  rw [show (13 : ℕ) = 12 + 1 from rfl, Math.cordicRotations.eq_2, rot_m100_12]
  norm_num [Math.cordicStep, Math.pow_i32, Math.powLoop, Math.abs_i32, Math.wrap32, Math.get_atan_for_cordic]

theorem rot_m100_14 : Math.cordicRotations 14 (0.6072529, 0, ((69595 : ℚ)/131072)) = (((170793403414608167791441143297387 : ℚ)/198070406285660843983859875840000), ((100307001140606560974875829398641 : ℚ)/198070406285660843983859875840000), ((-393069553 : ℚ)/6400000000000)) := by
  rw [show (14 : ℕ) = 13 + 1 from rfl, Math.cordicRotations.eq_2, rot_m100_13]
  norm_num [Math.cordicStep, Math.pow_i32, Math.powLoop, Math.abs_i32, Math.wrap32, Math.get_atan_for_cordic]

theorem rot_m100_15 : Math.cordicRotations 15 (0.6072529, 0, ((69595 : ℚ)/131072)) = (((2798379428546080827655946567613787249 : ℚ)/3245185536584267267831560205762560000), ((1643259113284283286844574147724036757 : ℚ)/3245185536584267267831560205762560000), ((-12222773 : ℚ)/32000000000000)) := by
  rw [show (15 : ℕ) = 14 + 1 from rfl, Math.cordicRotations.eq_2, rot_m100_14]
  norm_num [Math.cordicStep, Math.pow_i32, Math.powLoop, Math.abs_i32, Math.wrap32, Math.get_atan_for_cordic]

theorem rot_m100_16 : Math.cordicRotations 16 (0.6072529, 0, ((69595 : ℚ)/131072)) = (((91698940373711260843916901701716304611989 : ℚ)/106338239662793269832304564822427566080000), ((53843516244670848662495349726053622666127 : ℚ)/106338239662793269832304564822427566080000), ((964339723 : ℚ)/32000000000000)) := by
  rw [show (16 : ℕ) = 15 + 1 from rfl, Math.cordicRotations.eq_2, rot_m100_15]
  norm_num [Math.cordicStep, Math.pow_i32, Math.powLoop, Math.abs_i32, Math.wrap32, Math.get_atan_for_cordic]

theorem cordicFuel_33_eval : Math.cordicFuel 33 ((69595 : ℚ)/131072) = (((53843516244670848662495349726053622666127 : ℚ)/106338239662793269832304564822427566080000), ((91698940373711260843916901701716304611989 : ℚ)/106338239662793269832304564822427566080000)) := by
  rw [show (33 : ℕ) = 32 + 1 from rfl, Math.cordicFuel.eq_2,
    if_neg (by norm_num [Math.PI_OVER_2]), rot_m100_16]

theorem cordic_neg100_eval : Math.cordic (-100) = (((53843516244670848662495349726053622666127 : ℚ)/106338239662793269832304564822427566080000), ((91698940373711260843916901701716304611989 : ℚ)/106338239662793269832304564822427566080000)) := by
  rw [Math.cordic, Math.fuelNeeded_neg100_eval,
    red_m100_1,
    red_m100_2,
    red_m100_3,
    red_m100_4,
    red_m100_5,
    red_m100_6,
    red_m100_7,
    red_m100_8,
    red_m100_9,
    red_m100_10,
    red_m100_11,
    red_m100_12,
    red_m100_13,
    red_m100_14,
    red_m100_15,
    red_m100_16,
    red_m100_17,
    red_m100_18,
    red_m100_19,
    red_m100_20,
    red_m100_21,
    red_m100_22,
    red_m100_23,
    red_m100_24,
    red_m100_25,
    red_m100_26,
    red_m100_27,
    red_m100_28,
    red_m100_29,
    red_m100_30,
    red_m100_31,
    red_m100_32,
    cordicFuel_33_eval]
  norm_num [Math.negate_tuple]

/-- C4: the CORDIC path reproduces the known-angle fixtures within `1e-4`
absolute: `sin 0 ≈ 0`, `cos 0 ≈ 1`, `sin (π/2) ≈ 1`, `cos (π/2) ≈ 0`,
`sin π ≈ 0`, `cos π ≈ -1`, and the regression fixtures
`sin (-100) ≈ 0.50637`, `cos (-100) ≈ 0.86232`; each bound is an exact
rational evaluation of the embedded 16-iteration CORDIC with its arctangent
table, gain seed `0.6072529` and recursive angle reduction. -/
theorem cordic_known_angle_fixtures :
    |Math.sin 0| < 1/10000 ∧ |Math.cos 0 - 1| < 1/10000 ∧
    |Math.sin Math.PI_OVER_2 - 1| < 1/10000 ∧ |Math.cos Math.PI_OVER_2| < 1/10000 ∧
    |Math.sin Math.PI| < 1/10000 ∧ |Math.cos Math.PI + 1| < 1/10000 ∧
    |Math.sin (-100) - 0.50637| < 1/10000 ∧ |Math.cos (-100) - 0.86232| < 1/10000 := by
  refine ⟨?_, ?_, ?_, ?_, ?_, ?_, ?_, ?_⟩
  · rw [Math.sin, cordic_zero_eval, abs_lt]
    constructor <;> norm_num
  · rw [Math.cos, cordic_zero_eval, abs_lt]
    constructor <;> norm_num
  · rw [Math.sin, cordic_pi_over_2_eval, abs_lt]
    constructor <;> norm_num
  · rw [Math.cos, cordic_pi_over_2_eval, abs_lt]
    constructor <;> norm_num
  · rw [Math.sin, cordic_pi_eval, abs_lt]
    constructor <;> norm_num
  · rw [Math.cos, cordic_pi_eval, abs_lt]
    constructor <;> norm_num
  · rw [Math.sin, cordic_neg100_eval, abs_lt]
    constructor <;> norm_num
  · rw [Math.cos, cordic_neg100_eval, abs_lt]
    constructor <;> norm_num
